import Mathlib

/-!
Verification of the module-scoped question-generation pipeline of the
AI-Academic-Assistant repository (app/agents/question_generator.py and
app/models/__init__.py), as a shallow embedding in Lean 4.

Python strings are modelled as Lean Strings; Python lists/dicts of the JSON
layer are modelled by an inductive Json type with association lists whose
insert/update operations mirror Python dict semantics (insertion order kept,
assignment in place, setdefault appends at the end).  Regular-expression
matches used by the source are compiled by hand into equivalent deterministic
character scans (each regex used by the source is simple enough that greedy
matching is deterministic; this is argued in the comment of each matcher).
-/

/-! ## Python string primitives -/

/-- Python whitespace characters recognised by str.strip and by the regex
class backslash-s (ASCII part; syllabus input is text). -/
def pyIsSpace (c : Char) : Bool :=
  c = ' ' || c = '\t' || c = '\n' || c = '\r' || c = '\x0b' || c = '\x0c'

/-- Python str.strip on a character list. -/
def pyStripChars (cs : List Char) : List Char :=
  ((cs.dropWhile pyIsSpace).reverse.dropWhile pyIsSpace).reverse

/-- Python str.strip. -/
def pyStrip (s : String) : String :=
  (pyStripChars s.toList).asString

/-- Python str.lower (ASCII range, which is all the source's patterns use). -/
def pyLower (s : String) : String :=
  (s.toList.map Char.toLower).asString

/-- ASCII decimal digit test (regex class backslash-d on the source's input). -/
def isDigitChar (c : Char) : Bool :=
  '0' ≤ c && c ≤ '9'

/-- The punctuation class [:.-] appearing in the header regexes. -/
def isHeaderPunct (c : Char) : Bool :=
  c = ':' || c = '.' || c = '-'

/-- Drop a literal prefix, returning the remainder on success. -/
def dropLit : List Char → List Char → Option (List Char)
  | [], cs => some cs
  | _ :: _, [] => none
  | p :: ps, c :: cs => if c = p then dropLit ps cs else none

/-! ## Header pattern matchers (`_parse_all_modules_from_syllabus`)

The source tries, with re.match on the lowercased stripped line, the
patterns below in order, and uses group 1 (a digit run) as the module
number.  Each pattern is of the form: literal word, optional whitespace,
optional punctuation, digit run, and then a tail that matches any remainder;
since the whitespace class, the punctuation class and the digit class are
pairwise disjoint, greedy matching is deterministic and each pattern is
equivalent to the straightforward scan implemented here. -/

/-- Tail of the regex: optional whitespace then a required digit run
(group 1); the rest of each pattern matches any remainder. -/
def matchWsDigits (cs : List Char) : Option String :=
  let cs := cs.dropWhile pyIsSpace
  let ds := cs.takeWhile isDigitChar
  if ds.isEmpty then none else some ds.asString

/-- Tail: optional whitespace, one optional [:.-] character, optional
whitespace, then a required digit run (group 1). -/
def matchWsPunctDigits (cs : List Char) : Option String :=
  let cs := cs.dropWhile pyIsSpace
  let cs := match cs with
    | c :: rest => if isHeaderPunct c then rest else c :: rest
    | [] => []
  let cs := cs.dropWhile pyIsSpace
  let ds := cs.takeWhile isDigitChar
  if ds.isEmpty then none else some ds.asString

/-- Pattern (digits)[ws][:.-]... : a leading digit run (group 1), optional
whitespace, then a required [:.-] character. -/
def matchLeadingDigits (cs : List Char) : Option String :=
  let ds := cs.takeWhile isDigitChar
  if ds.isEmpty then none
  else
    let rest := (cs.dropWhile isDigitChar).dropWhile pyIsSpace
    match rest with
    | c :: _ => if isHeaderPunct c then some ds.asString else none
    | [] => none

/-- The five header patterns of the source, tried in order on the
lowercased stripped line; returns group 1 (the module number as the literal
digit string) of the first pattern that matches. -/
def headerNum (lineStripped : String) : Option String :=
  let cs := (pyLower lineStripped).toList
  match dropLit "module".toList cs with
  | some rest =>
    match matchWsDigits rest with
    | some ds => some ds
    | none =>
      match matchWsPunctDigits rest with
      | some ds => some ds
      | none => matchLeadingDigits cs
  | none =>
    match dropLit "chapter".toList cs with
    | some rest =>
      match matchWsDigits rest with
      | some ds => some ds
      | none => matchLeadingDigits cs
    | none =>
      match dropLit "unit".toList cs with
      | some rest =>
        match matchWsDigits rest with
        | some ds => some ds
        | none => matchLeadingDigits cs
      | none => matchLeadingDigits cs

/-! ## Python dict as an ordered association list -/

/-- Lookup in an ordered association list (Python d[k] / `in`). -/
def alistLookup : List (String × String) → String → Option String
  | [], _ => none
  | (k, v) :: rest, key => if k = key then some v else alistLookup rest key

/-- Python dict assignment d[k] = v: update in place if the key exists
(keeping its position), otherwise append at the end. -/
def alistInsert : List (String × String) → String → String → List (String × String)
  | [], key, v => [(key, v)]
  | (k, w) :: rest, key, v =>
    if k = key then (k, v) :: rest else (k, w) :: alistInsert rest key v

/-! ## `_parse_all_modules_from_syllabus` -/

/-- Parser state: the modules dict built so far and the currently open
module (name, accumulated content lines), if any. -/
structure ParseState where
  modules : List (String × String)
  current : Option (String × List String)
deriving Repr, DecidableEq

/-- Flush the currently open module into the dict (the source guards with
`if current_module and current_content`). -/
def flushCurrent (st : ParseState) : List (String × String) :=
  match st.current with
  | some (name, content) =>
    if name ≠ "" && !content.isEmpty then alistInsert st.modules name (String.intercalate "\n" content)
    else st.modules
  | none => st.modules

/-- One iteration of the line loop of `_parse_all_modules_from_syllabus`. -/
def parseStep (st : ParseState) (line : String) : ParseState :=
  let s := pyStrip line
  if s = "" then st
  else
    match headerNum s with
    | some num =>
      { modules := flushCurrent st, current := some ("Module " ++ num, [s]) }
    | none =>
      match st.current with
      | some (name, content) => { st with current := some (name, content ++ [s]) }
      | none => st

/-- Run the line loop from a given state and flush the last open module. -/
def parseLinesFrom (st : ParseState) (lines : List String) : List (String × String) :=
  flushCurrent (lines.foldl parseStep st)

/-- `_parse_all_modules_from_syllabus` on a list of lines. -/
def parseLines (lines : List String) : List (String × String) :=
  parseLinesFrom ⟨[], none⟩ lines

/-- Python str.split of a character list at newline characters: no group
collapsing, so the empty text yields one empty field. -/
def splitNlChars : List Char → List (List Char)
  | [] => [[]]
  | c :: rest =>
    if c = '\n' then [] :: splitNlChars rest
    else
      match splitNlChars rest with
      | [] => [[c]]
      | g :: gs => (c :: g) :: gs

/-- Python syllabus_text.split of the source, at newlines. -/
def splitNl (s : String) : List String :=
  (splitNlChars s.toList).map List.asString

/-- `_parse_all_modules_from_syllabus`: split on newlines and scan. -/
def parseAllModulesFromSyllabus (syllabusText : String) : List (String × String) :=
  parseLines (splitNl syllabusText)

/-! ## Decimal numerals

The parser's module keys use the literal digit string matched on the line.
To speak about "Module 1" through "Module K" for arbitrary K, we need a
decimal printer whose injectivity we can prove; core's Nat.repr has no
injectivity lemma, so we define an equivalent structural one. -/

/-- The decimal digit character for d < 10. -/
def decDigit : Nat → Char
  | 0 => '0' | 1 => '1' | 2 => '2' | 3 => '3' | 4 => '4'
  | 5 => '5' | 6 => '6' | 7 => '7' | 8 => '8' | _ => '9'

/-- Fuel-based decimal printer (least significant digit last). -/
def decReprAux : Nat → Nat → List Char
  | 0, _ => []
  | fuel + 1, n =>
    if n < 10 then [decDigit n]
    else decReprAux fuel (n / 10) ++ [decDigit (n % 10)]

/-- Decimal representation of a natural number. -/
def decRepr (n : Nat) : String :=
  (decReprAux (n + 1) n).asString

/-- Decimal evaluation, the left inverse of the printer. -/
def decVal (cs : List Char) : Nat :=
  cs.foldl (fun a c => 10 * a + (c.toNat - 48)) 0

theorem decVal_append_digit (xs : List Char) (c : Char) :
    decVal (xs ++ [c]) = 10 * decVal xs + (c.toNat - 48) := by
  simp [decVal, List.foldl_append]

theorem decDigit_toNat (d : Nat) (h : d < 10) : (decDigit d).toNat - 48 = d := by
  interval_cases d <;> decide

theorem decVal_decReprAux : ∀ fuel n, n < fuel → decVal (decReprAux fuel n) = n := by
  intro fuel
  induction fuel with
  | zero => intro n h; omega
  | succ fuel ih =>
    intro n h
    by_cases h10 : n < 10
    · simp [decReprAux, h10, decVal, decDigit_toNat n h10]
    · have hdiv : n / 10 < fuel := by
        have h1 : n / 10 < n := Nat.div_lt_self (by omega) (by omega)
        omega
      simp only [decReprAux, h10, if_false]
      rw [decVal_append_digit, ih (n / 10) hdiv,
        decDigit_toNat (n % 10) (Nat.mod_lt n (by omega))]
      omega

theorem decRepr_injective : Function.Injective decRepr := by
  intro m n h
  have hd : decReprAux (m + 1) m = decReprAux (n + 1) n := by
    have := congrArg String.data h
    simpa [decRepr, List.asString] using this
  have := congrArg decVal hd
  rwa [decVal_decReprAux (m + 1) m (by omega), decVal_decReprAux (n + 1) n (by omega)] at this

/-! ## Structured syllabi: blocks of header + content lines -/

/-- A header-led block of a syllabus: the digit string its header line
carries, the header line, and the content lines that follow it up to the
next header (exclusive). -/
structure Block where
  num : String
  header : String
  content : List String
deriving Repr, DecidableEq

/-- The lines of a block, in textual order. -/
def blockLines (b : Block) : List String :=
  b.header :: b.content

/-- A block is good when its header line matches a header pattern with its
number as group 1 and none of its content lines match any header pattern. -/
def goodBlock (b : Block) : Prop :=
  headerNum (pyStrip b.header) = some b.num ∧
    ∀ l ∈ b.content, headerNum (pyStrip l) = none

instance goodBlockDecidable (b : Block) : Decidable (goodBlock b) :=
  inferInstanceAs (Decidable (headerNum (pyStrip b.header) = some b.num ∧
    ∀ l ∈ b.content, headerNum (pyStrip l) = none))

/-- What the scanner keeps of a list of content lines: each line stripped,
blank lines skipped. -/
def cleanLines (ls : List String) : List String :=
  (ls.map pyStrip).filter (fun s => s ≠ "")

/-- The module-map entry the parser produces for a block. -/
def blockEntry (b : Block) : String × String :=
  ("Module " ++ b.num,
    String.intercalate "\n" (pyStrip b.header :: cleanLines b.content))

theorem headerNum_empty : headerNum "" = none := by decide

theorem parseStep_blank (st : ParseState) (line : String) (h : pyStrip line = "") :
    parseStep st line = st := by
  simp [parseStep, h]

theorem parseStep_content (mods : List (String × String)) (name : String)
    (acc : List String) (line : String) (hne : pyStrip line ≠ "")
    (hh : headerNum (pyStrip line) = none) :
    parseStep ⟨mods, some (name, acc)⟩ line = ⟨mods, some (name, acc ++ [pyStrip line])⟩ := by
  simp [parseStep, hne, hh]

theorem parseStep_noModule (mods : List (String × String)) (line : String)
    (hh : headerNum (pyStrip line) = none) :
    parseStep ⟨mods, none⟩ line = ⟨mods, none⟩ := by
  by_cases hne : pyStrip line = ""
  · exact parseStep_blank _ _ hne
  · simp [parseStep, hne, hh]

theorem parseStep_header (st : ParseState) (line : String) (num : String)
    (hh : headerNum (pyStrip line) = some num) :
    parseStep st line = ⟨flushCurrent st, some ("Module " ++ num, [pyStrip line])⟩ := by
  have hne : pyStrip line ≠ "" := by
    intro h
    rw [h, headerNum_empty] at hh
    exact Option.noConfusion hh
  simp [parseStep, hne, hh]

theorem foldl_content (ls : List String) :
    ∀ (mods : List (String × String)) (name : String) (acc : List String),
    (∀ l ∈ ls, headerNum (pyStrip l) = none) →
    ls.foldl parseStep ⟨mods, some (name, acc)⟩ = ⟨mods, some (name, acc ++ cleanLines ls)⟩ := by
  induction ls with
  | nil => intro mods name acc _; simp [cleanLines]
  | cons l ls ih =>
    intro mods name acc h
    have hl := h l (List.mem_cons_self l ls)
    have hrest : ∀ x ∈ ls, headerNum (pyStrip x) = none :=
      fun x hx => h x (List.mem_cons_of_mem l hx)
    by_cases hne : pyStrip l = ""
    · rw [List.foldl_cons, parseStep_blank _ _ hne, ih mods name acc hrest]
      simp [cleanLines, hne]
    · rw [List.foldl_cons, parseStep_content mods name acc l hne hl,
        ih mods name (acc ++ [pyStrip l]) hrest]
      simp [cleanLines, hne]

theorem foldl_junk (ls : List String) :
    ∀ (mods : List (String × String)),
    (∀ l ∈ ls, headerNum (pyStrip l) = none) →
    ls.foldl parseStep ⟨mods, none⟩ = ⟨mods, none⟩ := by
  induction ls with
  | nil => intro mods _; rfl
  | cons l ls ih =>
    intro mods h
    rw [List.foldl_cons, parseStep_noModule mods l (h l (List.mem_cons_self l ls))]
    exact ih mods fun x hx => h x (List.mem_cons_of_mem l hx)

theorem foldl_block (b : Block) (st : ParseState) (hb : goodBlock b) :
    (blockLines b).foldl parseStep st =
      ⟨flushCurrent st, some ("Module " ++ b.num, pyStrip b.header :: cleanLines b.content)⟩ := by
  rw [blockLines, List.foldl_cons, parseStep_header st b.header b.num hb.1]
  exact foldl_content b.content _ _ _ hb.2

theorem moduleKey_ne_empty (num : String) : "Module " ++ num ≠ "" := by
  intro h
  have := congrArg String.data h
  rw [String.data_append] at this
  simp at this

theorem flushCurrent_some (mods : List (String × String)) (num : String)
    (l : String) (ls : List String) :
    flushCurrent ⟨mods, some ("Module " ++ num, l :: ls)⟩ =
      alistInsert mods ("Module " ++ num) (String.intercalate "\n" (l :: ls)) := by
  simp [flushCurrent, moduleKey_ne_empty num]

theorem foldl_blocks (blocks : List Block) :
    ∀ (st : ParseState), (∀ b ∈ blocks, goodBlock b) →
    flushCurrent ((blocks.flatMap blockLines).foldl parseStep st) =
      (blocks.map blockEntry).foldl (fun m e => alistInsert m e.1 e.2) (flushCurrent st) := by
  induction blocks with
  | nil => intro st _; rfl
  | cons b bs ih =>
    intro st h
    have hb := h b (List.mem_cons_self b bs)
    have hrest : ∀ x ∈ bs, goodBlock x := fun x hx => h x (List.mem_cons_of_mem b hx)
    rw [List.flatMap_cons, List.foldl_append, foldl_block b st hb,
      ih _ hrest, List.map_cons, List.foldl_cons]
    rw [flushCurrent_some]
    rfl

theorem alistInsert_fresh (m : List (String × String)) (k v : String)
    (h : ∀ p ∈ m, p.1 ≠ k) : alistInsert m k v = m ++ [(k, v)] := by
  induction m with
  | nil => rfl
  | cons p rest ih =>
    obtain ⟨k1, w⟩ := p
    have hp : k1 ≠ k := h (k1, w) (List.mem_cons_self _ _)
    simp only [alistInsert, if_neg hp, List.cons_append, List.cons.injEq, true_and]
    exact ih fun q hq => h q (List.mem_cons_of_mem _ hq)

theorem foldl_alistInsert_fresh (entries : List (String × String)) :
    ∀ (m : List (String × String)),
    (∀ e ∈ entries, ∀ p ∈ m, p.1 ≠ e.1) → (entries.map Prod.fst).Nodup →
    entries.foldl (fun m e => alistInsert m e.1 e.2) m = m ++ entries := by
  induction entries with
  | nil => intro m _ _; simp
  | cons e es ih =>
    intro m hfresh hnd
    rw [List.foldl_cons,
      alistInsert_fresh m e.1 e.2 (fun p hp => hfresh e (List.mem_cons_self _ _) p hp)]
    have hnd' : (es.map Prod.fst).Nodup := by
      simpa using hnd.of_cons
    have hnotmem : e.1 ∉ es.map Prod.fst := by
      have := hnd
      rw [List.map_cons, List.nodup_cons] at this
      exact this.1
    rw [ih (m ++ [e]) ?_ hnd']
    · simp
    · intro x hx p hp
      rcases List.mem_append.mp hp with hm | he
      · exact hfresh x (List.mem_cons_of_mem _ hx) p hm
      · have hpe : p = e := by simpa using he
        subst hpe
        intro hcontra
        exact hnotmem (hcontra ▸ List.mem_map_of_mem Prod.fst hx)

theorem moduleKey_injective : Function.Injective (fun s => "Module " ++ s) := by
  intro a b h
  have hd := congrArg String.data h
  simp only [String.data_append] at hd
  exact String.ext (List.append_cancel_left hd)

/-- C5: for every syllabus text whose lines form blocks headed
"Module 1" through "Module K" (each header line carrying the literal decimal
number, each content line matching no header pattern), the parser returns
exactly K entries, and the entry for Module i holds exactly the lines of
block i — its header line followed by the (stripped, non-blank) lines up to
the next header or the end of the text, joined by newlines. -/
theorem moduleParser_structured_blocks
    (syl : String) (K : Nat) (blocks : List Block)
    (hsplit : splitNl syl = blocks.flatMap blockLines)
    (hnum : blocks.map Block.num = (List.range K).map (fun i => decRepr (i + 1)))
    (hgood : ∀ b ∈ blocks, goodBlock b) :
    (parseAllModulesFromSyllabus syl).length = K ∧
      parseAllModulesFromSyllabus syl = blocks.map blockEntry := by
  have hlen : blocks.length = K := by
    have := congrArg List.length hnum
    simpa using this
  have hkeys : (blocks.map blockEntry).map Prod.fst =
      (List.range K).map (fun i => "Module " ++ decRepr (i + 1)) := by
    rw [List.map_map]
    have hcomp : (Prod.fst ∘ blockEntry) = (fun s => "Module " ++ s) ∘ Block.num := by
      funext b; rfl
    rw [hcomp, ← List.map_map, hnum, List.map_map]
    rfl
  have hnodup : ((blocks.map blockEntry).map Prod.fst).Nodup := by
    rw [hkeys]
    refine List.Nodup.map ?_ (List.nodup_range K)
    intro a b h
    have h2 := decRepr_injective (moduleKey_injective h)
    omega
  have hparse : parseAllModulesFromSyllabus syl = blocks.map blockEntry := by
    unfold parseAllModulesFromSyllabus parseLines parseLinesFrom
    rw [hsplit, foldl_blocks blocks ⟨[], none⟩ hgood]
    have hflush : flushCurrent ⟨[], none⟩ = [] := rfl
    rw [hflush, foldl_alistInsert_fresh (blocks.map blockEntry) [] (by simp) hnodup]
    simp
  refine ⟨?_, hparse⟩
  rw [hparse, List.length_map, hlen]

/-- Witness for C5 at a concrete two-block syllabus. -/
theorem moduleParser_structured_blocks_witness :
    (parseAllModulesFromSyllabus "Module 1: Intro\nalpha\nmodule 2 - More\nbeta").length = 2 ∧
      parseAllModulesFromSyllabus "Module 1: Intro\nalpha\nmodule 2 - More\nbeta" =
        [("Module 1", "Module 1: Intro\nalpha"), ("Module 2", "module 2 - More\nbeta")] := by
  have h := moduleParser_structured_blocks "Module 1: Intro\nalpha\nmodule 2 - More\nbeta" 2
    [Block.mk "1" "Module 1: Intro" ["alpha"], Block.mk "2" "module 2 - More" ["beta"]]
    (by decide) (by decide) (by decide)
  exact ⟨h.1, h.2.trans (by decide)⟩

/-- C10: when a syllabus consists of two header-led blocks whose headers
extract the same number (e.g. a "Chapter 3" block followed by a "Module 3"
block), the parser's output maps "Module N" to the last block only; the
earlier block's lines appear nowhere in the returned module map. -/
theorem moduleParser_duplicate_number_last_wins
    (syl : String) (b1 b2 : Block)
    (hsplit : splitNl syl = blockLines b1 ++ blockLines b2)
    (h1 : goodBlock b1) (h2 : goodBlock b2)
    (hsame : b1.num = b2.num) :
    parseAllModulesFromSyllabus syl = [blockEntry b2] := by
  unfold parseAllModulesFromSyllabus parseLines parseLinesFrom
  rw [hsplit]
  have hflat : blockLines b1 ++ blockLines b2 = ([b1, b2].flatMap blockLines) := by
    simp
  rw [hflat, foldl_blocks [b1, b2] ⟨[], none⟩ (by
    intro b hb
    rcases List.mem_cons.mp hb with h | h
    · exact h ▸ h1
    · have : b = b2 := by simpa using h
      exact this ▸ h2)]
  have hflush : flushCurrent ⟨[], none⟩ = [] := rfl
  rw [hflush]
  simp only [List.map_cons, List.map_nil, List.foldl_cons, List.foldl_nil]
  have hkey : "Module " ++ b1.num = (blockEntry b2).1 := by
    simp [blockEntry, hsame]
  rw [show alistInsert [] (blockEntry b1).1 (blockEntry b1).2 = [blockEntry b1] from rfl]
  simp only [alistInsert, blockEntry, hsame, if_pos]

/-- Witness for C10: a "chapter 3" block whose lines are discarded in favour
of the later "module 3" block. -/
theorem moduleParser_duplicate_number_last_wins_witness :
    parseAllModulesFromSyllabus "chapter 3: a\nalpha\nmodule 3: b\nbeta" =
      [("Module 3", "module 3: b\nbeta")] := by
  have h := moduleParser_duplicate_number_last_wins "chapter 3: a\nalpha\nmodule 3: b\nbeta"
    (Block.mk "3" "chapter 3: a" ["alpha"]) (Block.mk "3" "module 3: b" ["beta"])
    (by decide) (by decide) (by decide) (by decide)
  exact h.trans (by decide)

/-- C9, counterexample to the claim as stated: non-header lines are NOT
appended verbatim — the parser strips surrounding whitespace first, so the
indented line "   indented line" appears in no module's content; only its
stripped form does. -/
theorem moduleParser_verbatim_counterexample :
    parseAllModulesFromSyllabus "module 1:\n   indented line" =
        [("Module 1", "module 1:\nindented line")] ∧
      "   indented line" ∉ splitNl "module 1:\nindented line" := by decide

/-- C9 as amended: (a) every non-blank line matching no header pattern is
appended, stripped of surrounding whitespace, to the currently open module's
content; (b) lines before any header appear in no module's content (parsing
a text with header-free junk prepended equals parsing without it); (c) a
text with no recognizable header yields an empty module map. -/
theorem moduleParser_line_handling :
    (∀ (mods : List (String × String)) (name : String) (acc : List String) (line : String),
       pyStrip line ≠ "" → headerNum (pyStrip line) = none →
       parseStep ⟨mods, some (name, acc)⟩ line = ⟨mods, some (name, acc ++ [pyStrip line])⟩) ∧
    (∀ junk rest : List String, (∀ l ∈ junk, headerNum (pyStrip l) = none) →
       parseLines (junk ++ rest) = parseLines rest) ∧
    (∀ lines : List String, (∀ l ∈ lines, headerNum (pyStrip l) = none) →
       parseLines lines = []) := by
  refine ⟨parseStep_content, ?_, ?_⟩
  · intro junk rest hj
    unfold parseLines parseLinesFrom
    rw [List.foldl_append, foldl_junk junk [] hj]
  · intro lines hl
    unfold parseLines parseLinesFrom
    rw [foldl_junk lines [] hl]
    rfl

/-- Witness for the amended C9 at concrete inputs. -/
theorem moduleParser_line_handling_witness :
    parseLines (["some stray text"] ++ ["module 1: x", "content"]) =
      parseLines ["module 1: x", "content"] := by
  exact moduleParser_line_handling.2.1 ["some stray text"] ["module 1: x", "content"] (by decide)

/-! ## `_extract_module_content` and its helpers -/

/-- `_extract_module_number`: re.search of a digit run — the first maximal
run of digits anywhere in the string, as the literal digit string. -/
def extractModuleNumber (moduleName : String) : Option String :=
  let ds := (moduleName.toList.dropWhile (fun c => !isDigitChar c)).takeWhile isDigitChar
  if ds.isEmpty then none else some ds.asString

/-- Resolution of one requested label against the module map: exact key
match first, then the numeric fallback scanning keys in map order. -/
def resolveModule (allModules : List (String × String)) (name : String) : Option String :=
  match alistLookup allModules name with
  | some content => some content
  | none =>
    match extractModuleNumber name with
    | some num =>
      (allModules.find? (fun kv => extractModuleNumber kv.1 == some num)).map Prod.snd
    | none => none

/-- The selection loop of `_extract_module_content`: accumulates the
selected-content lines (a banner, the content, a blank line per resolved
label) and the list of found labels, in request order. -/
def selectModulesLoop (allModules : List (String × String)) :
    List String → List String × List String
  | [] => ([], [])
  | name :: rest =>
    let tail := selectModulesLoop allModules rest
    match resolveModule allModules name with
    | some content =>
      (("\n=== " ++ name ++ " CONTENT ONLY ===") :: content :: "" :: tail.1, name :: tail.2)
    | none => tail

/-- Literal head of `_create_error_response`. -/
def errHead : String :=
  "\nERROR: Cannot generate questions for the selected modules.\n\nSELECTED MODULES: "

/-- Literal middle of `_create_error_response`. -/
def errMid : String :=
  "\nAVAILABLE MODULES IN SYLLABUS: "

/-- Literal tail of `_create_error_response`. -/
def errTail : String :=
  "\n\nPlease check that the module names are correct and exist in the uploaded syllabus.\nSupported formats: \"Module 1\", \"Module 2\", etc.\n"

/-- `_create_error_response`. -/
def createErrorResponse (selectedModules availableModules : List String) : String :=
  errHead ++ String.intercalate ", " selectedModules ++
    errMid ++ String.intercalate ", " availableModules ++ errTail

/-- The "ultra-strict" instruction envelope of `_extract_module_content`. -/
def strictContentEnvelope (selectedModules foundModules : List String) (result : String) : String :=
  "\nULTRA STRICT INSTRUCTION: You MUST generate questions ONLY from the specific module content below.\n\nSELECTED MODULES: " ++
    String.intercalate ", " selectedModules ++
    "\nAVAILABLE CONTENT: " ++ String.intercalate ", " foundModules ++
    "\n\n=== MODULE-SPECIFIC CONTENT ===\n" ++ result ++
    "\n\nCRITICAL RULES:\n1. Generate questions ONLY from the content above\n2. DO NOT use any knowledge outside this content\n3. Each question must relate to topics mentioned in the selected modules\n4. Tag each question with the correct module name from: " ++
    String.intercalate ", " selectedModules ++
    "\n5. IGNORE all other syllabus content not shown above\n6. DO NOT mention any concepts, terms, or topics not explicitly listed in the content above\n7. STICK STRICTLY to the topics shown: only use words and concepts that appear in the content above\n\nFORBIDDEN: Questions about topics not explicitly mentioned in the selected module content above.\nABSOLUTELY FORBIDDEN: Using your general knowledge about any subject beyond the provided content."

/-- `_extract_module_content` given the already-parsed module map. -/
def extractModuleContentFromMap (allModules : List (String × String))
    (selectedModules : List String) : String :=
  let picked := selectModulesLoop allModules selectedModules
  if picked.2.isEmpty then
    createErrorResponse selectedModules (allModules.map Prod.fst)
  else
    strictContentEnvelope selectedModules picked.2 (String.intercalate "\n" picked.1)

/-- `_extract_module_content`. -/
def extractModuleContent (syllabusText : String) (selectedModules : List String) : String :=
  extractModuleContentFromMap (parseAllModulesFromSyllabus syllabusText) selectedModules

/-- A requested label resolves when it matches a key exactly or shares its
extracted number with some key. -/
def resolves (allModules : List (String × String)) (name : String) : Prop :=
  (alistLookup allModules name).isSome = true ∨
    ∃ num, extractModuleNumber name = some num ∧
      ∃ kv ∈ allModules, extractModuleNumber kv.1 = some num

/-- Bool version of `resolves`. -/
def resolvesB (allModules : List (String × String)) (name : String) : Bool :=
  (alistLookup allModules name).isSome ||
    (match extractModuleNumber name with
     | some num => allModules.any (fun kv => extractModuleNumber kv.1 == some num)
     | none => false)

theorem resolves_iff (allModules : List (String × String)) (name : String) :
    resolves allModules name ↔ resolvesB allModules name = true := by
  unfold resolves resolvesB
  cases hn : extractModuleNumber name with
  | none => simp
  | some num => simp [List.any_eq_true]

instance resolvesDecidable (allModules : List (String × String)) (name : String) :
    Decidable (resolves allModules name) :=
  decidable_of_iff (resolvesB allModules name = true) (resolves_iff allModules name).symm

theorem resolveModule_eq_none (allModules : List (String × String)) (name : String)
    (h : ¬ resolves allModules name) : resolveModule allModules name = none := by
  cases hl : alistLookup allModules name with
  | some c => exact absurd (Or.inl (by rw [hl]; rfl)) h
  | none =>
    cases hn : extractModuleNumber name with
    | none => simp [resolveModule, hl, hn]
    | some num =>
      have hfind : allModules.find? (fun kv => extractModuleNumber kv.1 == some num) = none := by
        rw [List.find?_eq_none]
        intro kv hkv hbeq
        exact h (Or.inr ⟨num, hn, kv, hkv, by simpa using hbeq⟩)
      simp [resolveModule, hl, hn, hfind]

theorem selectModulesLoop_none (allModules : List (String × String)) :
    ∀ selectedModules : List String,
    (∀ name ∈ selectedModules, ¬ resolves allModules name) →
    selectModulesLoop allModules selectedModules = ([], []) := by
  intro sel
  induction sel with
  | nil => intro _; rfl
  | cons name rest ih =>
    intro h
    unfold selectModulesLoop
    rw [ih fun x hx => h x (List.mem_cons_of_mem _ hx),
      resolveModule_eq_none allModules name (h name (List.mem_cons_self _ _))]

/-- C6: the content selector is a total function into strings (it cannot
raise), and when no requested label resolves — by exact key match or by the
numeric fallback — the returned string is the literal error payload, which
contains the comma-joined requested labels and the comma-joined available
labels verbatim. -/
theorem extractModuleContent_disjoint (allModules : List (String × String))
    (selectedModules : List String)
    (h : ∀ name ∈ selectedModules, ¬ resolves allModules name) :
    extractModuleContentFromMap allModules selectedModules =
      errHead ++ String.intercalate ", " selectedModules ++
        errMid ++ String.intercalate ", " (allModules.map Prod.fst) ++ errTail := by
  unfold extractModuleContentFromMap
  rw [selectModulesLoop_none allModules selectedModules h]
  rfl

/-- Witness for C6 at a concrete map and request list. -/
theorem extractModuleContent_disjoint_witness :
    extractModuleContentFromMap [("Module 1", "alpha")] ["Module 9"] =
      errHead ++ "Module 9" ++ errMid ++ "Module 1" ++ errTail :=
  extractModuleContent_disjoint [("Module 1", "alpha")] ["Module 9"] (by decide)

/-! ## `QuestionGenerationRequest.validate_modules` (app/models/__init__.py) -/

deriving instance DecidableEq for Except

/-- Case-insensitive literal prefix drop (pattern given in lowercase). -/
def dropLitCI : List Char → List Char → Option (List Char)
  | [], cs => some cs
  | _ :: _, [] => none
  | p :: ps, c :: cs => if Char.toLower c = p then dropLitCI ps cs else none

/-- One attempt to match the substitution pattern module[ws]+(digits),
case-insensitively, at the head of the character list; returns the digit
group and the remainder after the match.  The whitespace class and the
digit class are disjoint, so the greedy match is deterministic. -/
def matchModuleSub (cs : List Char) : Option (List Char × List Char) :=
  match dropLitCI "module".toList cs with
  | none => none
  | some rest =>
    if (rest.takeWhile pyIsSpace).isEmpty then none
    else
      let rest2 := rest.dropWhile pyIsSpace
      let ds := rest2.takeWhile isDigitChar
      if ds.isEmpty then none
      else some (ds, rest2.dropWhile isDigitChar)

/-- The re.sub scan: left to right, non-overlapping, replacing each match
of module[ws]+(digits) by "Module " followed by the digit group.  Fuel is
the list length; every step consumes at least one character. -/
def pySubModuleAux : Nat → List Char → List Char
  | 0, cs => cs
  | _ + 1, [] => []
  | fuel + 1, c :: cs =>
    match matchModuleSub (c :: cs) with
    | some (ds, rest) => "Module ".toList ++ ds ++ pySubModuleAux fuel rest
    | none => c :: pySubModuleAux fuel cs

/-- The re.sub call of validate_modules. -/
def pySubModule (s : String) : String :=
  (pySubModuleAux s.toList.length s.toList).asString

/-- re.match of digits anchored at both ends: a non-empty all-digit string. -/
def isAllDigits (s : String) : Bool :=
  !s.toList.isEmpty && s.toList.all isDigitChar

/-- The final format check of validate_modules: literal "Module"
(case-sensitive), at least one whitespace character, then exactly one digit
1-9 or exactly the two characters of 10, then end of string.  Backtracking
cannot help the alternation, so the scan is deterministic. -/
def isValidModuleLabel (s : String) : Bool :=
  match dropLit "Module".toList s.toList with
  | none => false
  | some rest =>
    if (rest.takeWhile pyIsSpace).isEmpty then false
    else
      match rest.dropWhile pyIsSpace with
      | [c] => '1' ≤ c && c ≤ '9'
      | ['1', '0'] => true
      | _ => false

/-- The element loop of validate_modules: strip, skip empties, normalize
(re.sub, then the bare-integer override), check the final format, collect;
the first failing element raises. -/
def validateModulesAux : List String → Except String (List String)
  | [] => .ok []
  | m :: rest =>
    let m1 := pyStrip m
    if m1 = "" then validateModulesAux rest
    else
      let normalized0 := pySubModule m1
      let normalized := if isAllDigits m1 then "Module " ++ m1 else normalized0
      if isValidModuleLabel normalized then
        match validateModulesAux rest with
        | .ok l => .ok (normalized :: l)
        | .error e => .error e
      else .error ("Invalid module: " ++ m1 ++ ". Must be Module 1 through Module 10")

/-- validate_modules: the loop, then the emptiness check. -/
def validateModules (v : List String) : Except String (List String) :=
  match validateModulesAux v with
  | .error e => .error e
  | .ok l => if l.isEmpty then .error "At least one module must be selected" else .ok l

/-- The modules field of QuestionGenerationRequest: pydantic's
min_items=1/max_items=10 bound on the incoming list, then the validator. -/
def validateModulesField (v : List String) : Except String (List String) :=
  if v.length < 1 then .error "List should have at least 1 item"
  else if 10 < v.length then .error "List should have at most 10 items"
  else validateModules v

/-- C4, counterexample to the claim as stated: the label "MODULE-3" is NOT
accepted by request construction — the substitution pattern requires
whitespace between the word and the number, so "MODULE-3" is left unchanged
and rejected by the final format check with a validation error. -/
theorem validateModules_hyphen_counterexample :
    validateModulesField ["MODULE-3"] =
      Except.error "Invalid module: MODULE-3. Must be Module 1 through Module 10" := by
  decide

/-- C4 as amended: at request validation, labels are equivalent only up to
the module-whitespace-number pattern (case-insensitively) or a bare integer;
"module 3" and "MODULE 3" are both accepted and normalized to "Module 3",
while "MODULE-3" (no whitespace before the number) is rejected with a
validation error naming the offending token. -/
theorem validateModules_normalization :
    validateModulesField ["module 3"] = Except.ok ["Module 3"] ∧
      validateModulesField ["MODULE 3"] = Except.ok ["Module 3"] ∧
      validateModulesField ["3"] = Except.ok ["Module 3"] ∧
      validateModulesField ["MODULE-3"] =
        Except.error "Invalid module: MODULE-3. Must be Module 1 through Module 10" := by
  decide

theorem validateModulesAux_ok (v : List String) :
    ∀ out, validateModulesAux v = Except.ok out →
      out.length ≤ v.length ∧ ∀ m ∈ out, isValidModuleLabel m = true := by
  induction v with
  | nil =>
    intro out h
    cases h
    exact ⟨Nat.le_refl 0, by intro m hm; cases hm⟩
  | cons x rest ih =>
    intro out h
    unfold validateModulesAux at h
    by_cases hempty : pyStrip x = ""
    · rw [if_pos hempty] at h
      obtain ⟨hlen, hval⟩ := ih out h
      exact ⟨Nat.le_succ_of_le hlen, hval⟩
    · rw [if_neg hempty] at h
      by_cases hvalid : isValidModuleLabel
          (if isAllDigits (pyStrip x) then "Module " ++ pyStrip x else pySubModule (pyStrip x)) = true
      · rw [if_pos hvalid] at h
        cases hrest : validateModulesAux rest with
        | error e => rw [hrest] at h; cases h
        | ok l =>
          rw [hrest] at h
          cases h
          obtain ⟨hlen, hval⟩ := ih l hrest
          refine ⟨Nat.succ_le_succ hlen, ?_⟩
          intro m hm
          rcases List.mem_cons.mp hm with hm1 | hm2
          · rw [hm1]; exact hvalid
          · exact hval m hm2
      · rw [if_neg hvalid] at h
        cases h

/-- C8 as amended: every successfully validated modules field carries
between 1 and 10 labels, each matching the "Module N" format with N in
1..10; uniqueness, however, is NOT guaranteed (duplicates after
normalization are preserved, see the counterexample). -/
theorem validateModulesField_ok_shape (v out : List String)
    (h : validateModulesField v = Except.ok out) :
    1 ≤ out.length ∧ out.length ≤ 10 ∧ ∀ m ∈ out, isValidModuleLabel m = true := by
  unfold validateModulesField at h
  by_cases h1 : v.length < 1
  · rw [if_pos h1] at h; cases h
  · rw [if_neg h1] at h
    by_cases h2 : 10 < v.length
    · rw [if_pos h2] at h; cases h
    · rw [if_neg h2] at h
      unfold validateModules at h
      cases haux : validateModulesAux v with
      | error e => simp [haux] at h
      | ok l =>
        simp only [haux] at h
        by_cases hne : l.isEmpty
        · simp [hne] at h
        · simp only [if_neg hne] at h
          cases h
          obtain ⟨hlen, hval⟩ := validateModulesAux_ok v out haux
          refine ⟨?_, Nat.le_trans hlen (by omega), hval⟩
          cases out with
          | nil => exact absurd rfl hne
          | cons a as => exact Nat.succ_le_succ (Nat.zero_le _)

/-- Witness for the amended C8 at a concrete request. -/
theorem validateModulesField_ok_shape_witness :
    1 ≤ (["Module 2"] : List String).length ∧ (["Module 2"] : List String).length ≤ 10 ∧
      ∀ m ∈ (["Module 2"] : List String), isValidModuleLabel m = true :=
  validateModulesField_ok_shape ["module 2"] ["Module 2"] (by decide)

/-- C8, counterexample to the claim as stated: duplicate labels after
normalization are preserved, not removed — the validated request is not
duplicate-free. -/
theorem validateModules_duplicates_counterexample :
    validateModulesField ["Module 1", "module 1"] = Except.ok ["Module 1", "Module 1"] ∧
      ¬ (["Module 1", "Module 1"] : List String).Nodup := by
  refine ⟨by decide, ?_⟩
  intro h
  rw [List.nodup_cons] at h
  exact h.1 (List.mem_singleton.mpr rfl)

/-! ## JSON values (the parsed form produced by json.loads) -/

/-- JSON values: numbers are modelled as integers (the source's schema only
uses integer marks/counts; float literals are rejected by this embedding's
parser and never produced by the defaulting). -/
inductive Json where
  | null
  | bool (b : Bool)
  | num (n : Int)
  | str (s : String)
  | arr (elems : List Json)
  | obj (fields : List (String × Json))
deriving Repr, Inhabited

/-- Lookup in a JSON object's field list (Python d[k] / d.get(k)). -/
def jlookup : List (String × Json) → String → Option Json
  | [], _ => none
  | (k, v) :: rest, key => if k = key then some v else jlookup rest key

/-- Python dict assignment d[k] = v: replace in place, else append. -/
def jInsert : List (String × Json) → String → Json → List (String × Json)
  | [], key, v => [(key, v)]
  | (k, w) :: rest, key, v =>
    if k = key then (k, v) :: rest else (k, w) :: jInsert rest key v

/-- Python dict.setdefault: append the pair at the end only when absent. -/
def jSetdefault (kvs : List (String × Json)) (key : String) (v : Json) :
    List (String × Json) :=
  match jlookup kvs key with
  | some _ => kvs
  | none => kvs ++ [(key, v)]

/-! ## A json.loads fragment sufficient for the repairer

Structural fuel recursion (fuel bounded by the input length) so that every
run reduces inside the kernel. -/

/-- JSON insignificant whitespace. -/
def jsonIsWs (c : Char) : Bool :=
  c = ' ' || c = '\t' || c = '\n' || c = '\r'

/-- Parse a JSON string body after the opening quote, handling the common
escapes; unsupported escapes fail the parse. -/
def parseJsonStringAux : List Char → List Char → Option (String × List Char)
  | _, [] => none
  | acc, c :: rest =>
    if c = '"' then some (acc.reverse.asString, rest)
    else if c = '\\' then
      match rest with
      | [] => none
      | e :: rest2 =>
        if e = '"' then parseJsonStringAux ('"' :: acc) rest2
        else if e = '\\' then parseJsonStringAux ('\\' :: acc) rest2
        else if e = '/' then parseJsonStringAux ('/' :: acc) rest2
        else if e = 'n' then parseJsonStringAux ('\n' :: acc) rest2
        else if e = 't' then parseJsonStringAux ('\t' :: acc) rest2
        else if e = 'r' then parseJsonStringAux ('\r' :: acc) rest2
        else none
    else parseJsonStringAux (c :: acc) rest

/-- Decimal value of a digit run. -/
def digitsToNat (ds : List Char) : Nat :=
  ds.foldl (fun a c => 10 * a + (c.toNat - 48)) 0

/-- Parse a JSON integer literal (optional minus, digit run; a following
fraction or exponent marker is rejected as unsupported). -/
def parseJsonInt (cs : List Char) : Option (Json × List Char) :=
  let neg : Bool := match cs with
    | c :: _ => c == '-'
    | [] => false
  let cs2 := if neg then cs.drop 1 else cs
  let ds := cs2.takeWhile isDigitChar
  if ds.isEmpty then none
  else
    let rest := cs2.dropWhile isDigitChar
    let bad := match rest with
      | d :: _ => d = '.' || d = 'e' || d = 'E'
      | [] => false
    if bad then none
    else
      let v : Int := Int.ofNat (digitsToNat ds)
      some (Json.num (if neg then -v else v), rest)

mutual

/-- Parse one JSON value, skipping leading whitespace. -/
def parseJsonValue : Nat → List Char → Option (Json × List Char)
  | 0, _ => none
  | fuel + 1, cs =>
    match cs.dropWhile jsonIsWs with
    | [] => none
    | c :: rest =>
      if c = '\x7b' then parseJsonObj fuel rest
      else if c = '[' then parseJsonArr fuel rest
      else if c = '"' then
        match parseJsonStringAux [] rest with
        | some (s, rest2) => some (Json.str s, rest2)
        | none => none
      else if c = 't' then
        match dropLit "rue".toList rest with
        | some rest2 => some (Json.bool true, rest2)
        | none => none
      else if c = 'f' then
        match dropLit "alse".toList rest with
        | some rest2 => some (Json.bool false, rest2)
        | none => none
      else if c = 'n' then
        match dropLit "ull".toList rest with
        | some rest2 => some (Json.null, rest2)
        | none => none
      else parseJsonInt (c :: rest)

/-- Parse an object body after the opening brace. -/
def parseJsonObj : Nat → List Char → Option (Json × List Char)
  | 0, _ => none
  | fuel + 1, cs =>
    match cs.dropWhile jsonIsWs with
    | '\x7d' :: rest => some (Json.obj [], rest)
    | other => parseJsonMembers fuel other []

/-- Parse the members of a non-empty object. -/
def parseJsonMembers : Nat → List Char → List (String × Json) →
    Option (Json × List Char)
  | 0, _, _ => none
  | fuel + 1, cs, acc =>
    match cs.dropWhile jsonIsWs with
    | '"' :: rest =>
      match parseJsonStringAux [] rest with
      | some (k, rest2) =>
        match rest2.dropWhile jsonIsWs with
        | ':' :: rest3 =>
          match parseJsonValue fuel rest3 with
          | some (v, rest4) =>
            match rest4.dropWhile jsonIsWs with
            | ',' :: rest5 => parseJsonMembers fuel rest5 (jInsert acc k v)
            | '\x7d' :: rest5 => some (Json.obj (jInsert acc k v), rest5)
            | _ => none
          | none => none
        | _ => none
      | none => none
    | _ => none

/-- Parse an array body after the opening bracket. -/
def parseJsonArr : Nat → List Char → Option (Json × List Char)
  | 0, _ => none
  | fuel + 1, cs =>
    match cs.dropWhile jsonIsWs with
    | ']' :: rest => some (Json.arr [], rest)
    | other => parseJsonElems fuel other []

/-- Parse the elements of a non-empty array. -/
def parseJsonElems : Nat → List Char → List Json → Option (Json × List Char)
  | 0, _, _ => none
  | fuel + 1, cs, acc =>
    match parseJsonValue fuel cs with
    | some (v, rest) =>
      match rest.dropWhile jsonIsWs with
      | ',' :: rest2 => parseJsonElems fuel rest2 (acc ++ [v])
      | ']' :: rest2 => some (Json.arr (acc ++ [v]), rest2)
      | _ => none
    | none => none

end

/-- json.loads: parse one value and require only whitespace to remain. -/
def jsonLoads (s : String) : Option Json :=
  match parseJsonValue (s.toList.length + 1) s.toList with
  | some (v, rest) => if (rest.dropWhile jsonIsWs).isEmpty then some v else none
  | none => none

/-! ## Typed models (app/models/__init__.py) -/

/-- TestType enum. -/
inductive TestType where
  | CAT1 | CAT2 | FAT
deriving DecidableEq, Repr

/-- The string value of each enum member. -/
def TestType.value : TestType → String
  | .CAT1 => "CAT-1"
  | .CAT2 => "CAT-2"
  | .FAT => "FAT"

/-- One row of QuestionPaperGenerator.question_limits. -/
structure TestConfig where
  count : Nat
  marks_each : Int
  total : Int
deriving Repr, DecidableEq

/-- The question_limits table built in QuestionPaperGenerator.init. -/
def questionLimits : TestType → TestConfig
  | .CAT1 => ⟨5, 10, 50⟩
  | .CAT2 => ⟨5, 10, 50⟩
  | .FAT => ⟨10, 10, 100⟩

/-- Pydantic QuestionPart. -/
structure QuestionPart where
  label : Option String
  marks : Int
  text : String
  module : List String
deriving Repr, DecidableEq

/-- Pydantic Question. -/
structure Question where
  q_no : Int
  marks : Int
  parts : List QuestionPart
  instructions : Option String
deriving Repr, DecidableEq

/-- Pydantic QuestionPaperMetadata. -/
structure QuestionPaperMetadata where
  title : String
  test_type : TestType
  modules : List String
  total_marks : Int
  notes : Option String
deriving Repr, DecidableEq

/-- Pydantic QuestionPaperValidation. -/
structure QuestionPaperValidation where
  total_marks_check : Int
  unique_questions : Bool
deriving Repr, DecidableEq

/-- Pydantic GeneratedQuestionPaper. -/
structure GeneratedQuestionPaper where
  metadata : QuestionPaperMetadata
  paper : List Question
  validation : QuestionPaperValidation
deriving Repr, DecidableEq

/-- Pydantic QuestionGenerationRequest after field validation (the modules
field has been through validate_modules). -/
structure QuestionGenerationRequest where
  syllabus_text : String
  test_type : TestType
  modules : List String
deriving Repr, DecidableEq

/-- Pydantic QuestionGenerationResponse.  processing_time is wall-clock
elapsed time; the embedding passes the clock readings in explicitly. -/
structure QuestionGenerationResponse where
  success : Bool
  message : String
  question_paper : Option GeneratedQuestionPaper
  processing_time : Int
  agent_used : String
deriving Repr, DecidableEq

/-! ## Python str() of a parsed JSON value (for the part-text placeholder) -/

/-- Python str() of an int. -/
def intRepr (n : Int) : String :=
  if n < 0 then "-" ++ decRepr (-n).toNat else decRepr n.toNat

/-- repr-style rendering of a parsed JSON value, with fuel (large constant;
only scalar values ever reach this in the source's data). -/
def pyStrAux : Nat → Json → String
  | 0, _ => ""
  | fuel + 1, j =>
    match j with
    | .null => "None"
    | .bool true => "True"
    | .bool false => "False"
    | .num n => intRepr n
    | .str s => "'" ++ s ++ "'"
    | .arr xs => "[" ++ String.intercalate ", " (xs.map (pyStrAux fuel)) ++ "]"
    | .obj kvs =>
      "\x7b" ++
        String.intercalate ", "
          (kvs.map (fun kv => "'" ++ kv.1 ++ "': " ++ pyStrAux fuel kv.2)) ++ "\x7d"

/-- Python str() of a parsed JSON value as an f-string interpolates it. -/
def pyStrOf : Json → String
  | .str s => s
  | j => pyStrAux 1000000 j

/-! ## `_parse_and_validate_response`: slice, defaulting, construction -/

/-- Index of the first occurrence of a character (Python str.find). -/
def findCharIdx : List Char → Char → Option Nat
  | [], _ => none
  | x :: rest, c => if x = c then some 0 else (findCharIdx rest c).map (· + 1)

/-- Index of the last occurrence of a character (Python str.rfind). -/
def rfindCharIdx (cs : List Char) (c : Char) : Option Nat :=
  match findCharIdx cs.reverse c with
  | some i => some (cs.length - 1 - i)
  | none => none

/-- The response-cleaning slice: from the first opening brace to the last
closing brace, inclusive; none when either brace is missing. -/
def extractJsonSlice (raw : String) : Option String :=
  let cs := raw.toList
  match findCharIdx cs '\x7b', rfindCharIdx cs '\x7d' with
  | some i, some j => some (((cs.drop i).take (j + 1 - i)).asString)
  | _, _ => none

/-- Per-part defaulting (the inner loop of the fallback block): label,
marks (parent question's marks), text placeholder naming the question
number, module (first requested module); non-dict parts are untouched. -/
def defaultPart (parentMarks : Json) (qnoStr : String) (modules : List String)
    (p : Json) : Json :=
  match p with
  | Json.obj kvs =>
    Json.obj (jSetdefault (jSetdefault (jSetdefault (jSetdefault kvs
      "label" Json.null)
      "marks" parentMarks)
      "text" (Json.str ("Question " ++ qnoStr ++ " content")))
      "module" (Json.arr ((modules.take 1).map Json.str)))
  | other => other

/-- Per-question defaulting: q_no (1-based position), marks (profile
per-question value), instructions, parts (empty list when absent or not a
list), then part defaulting; non-dict questions are untouched. -/
def defaultQuestion (cfg : TestConfig) (modules : List String) (i : Nat)
    (q : Json) : Json :=
  match q with
  | Json.obj kvs =>
    let kvs1 := jSetdefault kvs "q_no" (Json.num (Int.ofNat (i + 1)))
    let kvs2 := jSetdefault kvs1 "marks" (Json.num cfg.marks_each)
    let kvs3 := jSetdefault kvs2 "instructions" Json.null
    let partsList := match jlookup kvs3 "parts" with
      | some (Json.arr ps) => ps
      | _ => []
    let parentMarks := (jlookup kvs3 "marks").getD (Json.num cfg.marks_each)
    let qnoStr := pyStrOf ((jlookup kvs3 "q_no").getD (Json.num (Int.ofNat (i + 1))))
    Json.obj (jInsert kvs3 "parts"
      (Json.arr (partsList.map (defaultPart parentMarks qnoStr modules))))
  | other => other

/-- The enumerate loop over the paper list. -/
def defaultPaperAux (cfg : TestConfig) (modules : List String) :
    Nat → List Json → List Json
  | _, [] => []
  | i, q :: rest =>
    defaultQuestion cfg modules i q :: defaultPaperAux cfg modules (i + 1) rest

/-- The metadata setdefault chain of the fallback block (title, test_type,
modules, total_marks, notes, in source order). -/
def mdChain (t : TestType) (modules : List String)
    (md : List (String × Json)) : List (String × Json) :=
  jSetdefault (jSetdefault (jSetdefault (jSetdefault (jSetdefault md
    "title" (Json.str (TestType.value t ++ " Question Paper")))
    "test_type" (Json.str (TestType.value t)))
    "modules" (Json.arr (modules.map Json.str)))
    "total_marks" (Json.num (questionLimits t).total))
    "notes" (Json.str "Generated based on provided syllabus")

/-- The validation setdefault chain of the fallback block. -/
def vdChain (t : TestType) (vd : List (String × Json)) : List (String × Json) :=
  jSetdefault (jSetdefault vd
    "total_marks_check" (Json.num (questionLimits t).total))
    "unique_questions" (Json.bool true)

/-- The tail of the fallback block after metadata has been forced to be a
dict: metadata completion, validation completion, then the paper repair. -/
def applyDefaultsTail (kvsA : List (String × Json)) (t : TestType)
    (modules : List String) (qs : List Json) : List (String × Json) :=
  let md := match jlookup kvsA "metadata" with
    | some (Json.obj m) => m
    | _ => []
  let kvsB := jInsert kvsA "metadata" (Json.obj (mdChain t modules md))
  let kvsC := match jlookup kvsB "validation" with
    | some (Json.obj _) => kvsB
    | _ => jInsert kvsB "validation" (Json.obj [])
  let vd := match jlookup kvsC "validation" with
    | some (Json.obj m) => m
    | _ => []
  let kvsD := jInsert kvsC "validation" (Json.obj (vdChain t vd))
  jInsert kvsD "paper" (Json.arr (defaultPaperAux (questionLimits t) modules 0 qs))

/-- The fallback-data block of `_parse_and_validate_response` (lines
486-526): runs only when the paper field is a list; completes metadata and
validation with setdefault and repairs every question in place. -/
def applyDefaults (kvs : List (String × Json)) (t : TestType)
    (modules : List String) : List (String × Json) :=
  match jlookup kvs "paper" with
  | some (Json.arr qs) =>
    let kvsA := match jlookup kvs "metadata" with
      | some (Json.obj _) => kvs
      | _ => jInsert kvs "metadata" (Json.obj [])
    applyDefaultsTail kvsA t modules qs
  | _ => kvs

/-! ## Pydantic construction of the typed paper -/

/-- A list field of strings (each element must be a string). -/
def buildStrList : List Json → Except String (List String)
  | [] => .ok []
  | Json.str s :: rest =>
    match buildStrList rest with
    | .ok l => .ok (s :: l)
    | .error e => .error e
  | _ :: _ => .error "Input should be a valid string"

/-- An optional string field: absent or null becomes none. -/
def buildOptStr (o : Option Json) : Except String (Option String) :=
  match o with
  | none => .ok none
  | some Json.null => .ok none
  | some (Json.str s) => .ok (some s)
  | some _ => .error "Input should be a valid string"

/-- QuestionPart(**part): label optional, marks int in 1..10, text string of
length at least 10, module list of strings; extra keys ignored. -/
def buildQuestionPart (j : Json) : Except String QuestionPart :=
  match j with
  | Json.obj kvs =>
    match buildOptStr (jlookup kvs "label") with
    | .error e => .error ("label: " ++ e)
    | .ok label =>
      match jlookup kvs "marks" with
      | some (Json.num n) =>
        if 1 ≤ n ∧ n ≤ 10 then
          match jlookup kvs "text" with
          | some (Json.str s) =>
            if 10 ≤ s.length then
              match jlookup kvs "module" with
              | some (Json.arr xs) =>
                match buildStrList xs with
                | .ok mods => .ok ⟨label, n, s, mods⟩
                | .error e => .error ("module: " ++ e)
              | some _ => .error "module: Input should be a valid list"
              | none => .error "module: Field required"
            else .error "text: String should have at least 10 characters"
          | some _ => .error "text: Input should be a valid string"
          | none => .error "text: Field required"
        else .error "marks: Input should be in the range 1..10"
      | some _ => .error "marks: Input should be a valid integer"
      | none => .error "marks: Field required"
  | _ => .error "QuestionPart: Input should be a valid dictionary"

/-- The parts list: every element constructed, at least one required. -/
def buildQuestionParts : List Json → Except String (List QuestionPart)
  | [] => .ok []
  | p :: rest =>
    match buildQuestionPart p with
    | .ok part =>
      match buildQuestionParts rest with
      | .ok l => .ok (part :: l)
      | .error e => .error e
    | .error e => .error e

/-- Question(**question): q_no int at least 1, marks int in 1..10, parts a
non-empty list of parts, instructions optional. -/
def buildQuestion (j : Json) : Except String Question :=
  match j with
  | Json.obj kvs =>
    match jlookup kvs "q_no" with
    | some (Json.num qno) =>
      if 1 ≤ qno then
        match jlookup kvs "marks" with
        | some (Json.num n) =>
          if 1 ≤ n ∧ n ≤ 10 then
            match jlookup kvs "parts" with
            | some (Json.arr ps) =>
              match buildQuestionParts ps with
              | .ok parts =>
                if parts.isEmpty then
                  .error "parts: List should have at least 1 item"
                else
                  match buildOptStr (jlookup kvs "instructions") with
                  | .ok instr => .ok ⟨qno, n, parts, instr⟩
                  | .error e => .error ("instructions: " ++ e)
              | .error e => .error e
            | some _ => .error "parts: Input should be a valid list"
            | none => .error "parts: Field required"
          else .error "marks: Input should be in the range 1..10"
        | some _ => .error "marks: Input should be a valid integer"
        | none => .error "marks: Field required"
      else .error "q_no: Input should be greater than or equal to 1"
    | some _ => .error "q_no: Input should be a valid integer"
    | none => .error "q_no: Field required"
  | _ => .error "Question: Input should be a valid dictionary"

/-- The paper list: every element must construct as a Question. -/
def buildQuestions : List Json → Except String (List Question)
  | [] => .ok []
  | q :: rest =>
    match buildQuestion q with
    | .ok question =>
      match buildQuestions rest with
      | .ok l => .ok (question :: l)
      | .error e => .error e
    | .error e => .error e

/-- The TestType enum from its string value. -/
def buildTestType (j : Json) : Except String TestType :=
  match j with
  | Json.str s =>
    if s = "CAT-1" then .ok .CAT1
    else if s = "CAT-2" then .ok .CAT2
    else if s = "FAT" then .ok .FAT
    else .error "test_type: Input should be CAT-1, CAT-2 or FAT"
  | _ => .error "test_type: Input should be CAT-1, CAT-2 or FAT"

/-- QuestionPaperMetadata(**metadata). -/
def buildMetadata (j : Json) : Except String QuestionPaperMetadata :=
  match j with
  | Json.obj kvs =>
    match jlookup kvs "title" with
    | some (Json.str title) =>
      if 1 ≤ title.length then
        match jlookup kvs "test_type" with
        | some tj =>
          match buildTestType tj with
          | .ok tt =>
            match jlookup kvs "modules" with
            | some (Json.arr xs) =>
              match buildStrList xs with
              | .ok mods =>
                if mods.isEmpty then .error "modules: List should have at least 1 item"
                else
                  match jlookup kvs "total_marks" with
                  | some (Json.num tm) =>
                    if 1 ≤ tm then
                      match buildOptStr (jlookup kvs "notes") with
                      | .ok notes => .ok ⟨title, tt, mods, tm, notes⟩
                      | .error e => .error ("notes: " ++ e)
                    else .error "total_marks: Input should be greater than or equal to 1"
                  | some _ => .error "total_marks: Input should be a valid integer"
                  | none => .error "total_marks: Field required"
              | .error e => .error ("modules: " ++ e)
            | some _ => .error "modules: Input should be a valid list"
            | none => .error "modules: Field required"
          | .error e => .error e
        | none => .error "test_type: Field required"
      else .error "title: String should have at least 1 character"
    | some _ => .error "title: Input should be a valid string"
    | none => .error "title: Field required"
  | _ => .error "metadata: Input should be a valid dictionary"

/-- QuestionPaperValidation(**validation). -/
def buildPaperValidation (j : Json) : Except String QuestionPaperValidation :=
  match j with
  | Json.obj kvs =>
    match jlookup kvs "total_marks_check" with
    | some (Json.num n) =>
      match jlookup kvs "unique_questions" with
      | some (Json.bool b) => .ok ⟨n, b⟩
      | some _ => .error "unique_questions: Input should be a valid boolean"
      | none => .error "unique_questions: Field required"
    | some _ => .error "total_marks_check: Input should be a valid integer"
    | none => .error "total_marks_check: Field required"
  | _ => .error "validation: Input should be a valid dictionary"

/-- GeneratedQuestionPaper(**parsed_data): the three declared fields are
validated; extra keys are ignored. -/
def buildGeneratedQuestionPaper (kvs : List (String × Json)) :
    Except String GeneratedQuestionPaper :=
  match jlookup kvs "metadata" with
  | none => .error "metadata: Field required"
  | some mj =>
    match buildMetadata mj with
    | .error e => .error e
    | .ok md =>
      match jlookup kvs "paper" with
      | none => .error "paper: Field required"
      | some (Json.arr qs) =>
        match buildQuestions qs with
        | .error e => .error e
        | .ok paper =>
          match jlookup kvs "validation" with
          | none => .error "validation: Field required"
          | some vj =>
            match buildPaperValidation vj with
            | .error e => .error e
            | .ok vld => .ok ⟨md, paper, vld⟩
      | some _ => .error "paper: Input should be a valid list"

/-! ## `_validate_question_paper` -/

/-- The business-rule validation: hard checks raise (error); the
module-coverage check only warns.  The returned flag is true exactly when
the coverage warning was emitted; in the source the paper flows on to the
caller in both ok cases. -/
def validateQuestionPaper (qp : GeneratedQuestionPaper) (cfg : TestConfig)
    (requestedModules : List String) : Except String Bool :=
  if qp.paper.length ≠ cfg.count then
    .error ("Expected " ++ decRepr cfg.count ++ " questions, got " ++
      decRepr qp.paper.length)
  else
    let actualTotal := (qp.paper.map Question.marks).sum
    if actualTotal ≠ cfg.total then
      .error ("Expected " ++ intRepr cfg.total ++ " total marks, got " ++
        intRepr actualTotal)
    else
      match qp.paper.find? (fun q => q.marks != cfg.marks_each) with
      | some q =>
        .error ("Question " ++ intRepr q.q_no ++ " has " ++ intRepr q.marks ++
          " marks, expected " ++ intRepr cfg.marks_each)
      | none =>
        let covered := qp.paper.flatMap (fun q => q.parts.flatMap QuestionPart.module)
        .ok (!covered.any (fun m => requestedModules.contains m))

/-! ## `_parse_and_validate_response` -/

/-- The three required top-level fields. -/
def requiredFields : List String := ["metadata", "paper", "validation"]

/-- The repair part of `_parse_and_validate_response`: slice between the
first opening and last closing brace, json.loads, required-keys check,
deterministic defaulting, typed construction.  Error strings carry the
prefixes the source's except clauses attach. -/
def repairResponse (raw : String) (req : QuestionGenerationRequest) :
    Except String GeneratedQuestionPaper :=
  match extractJsonSlice raw with
  | none => .error "Response validation failed: No valid JSON found in response"
  | some clean =>
    match jsonLoads clean with
    | none => .error "Invalid JSON response: could not parse"
    | some (Json.obj kvs) =>
      let missing := requiredFields.filter (fun f => (jlookup kvs f).isNone)
      if !missing.isEmpty then
        .error ("Response validation failed: Missing required top-level fields: " ++
          String.intercalate ", " missing)
      else
        match buildGeneratedQuestionPaper (applyDefaults kvs req.test_type req.modules) with
        | .ok qp => .ok qp
        | .error e => .error ("Response validation failed: " ++ e)
    | some _ => .error "Response validation failed: Missing required top-level fields: metadata, paper, validation"

/-- `_parse_and_validate_response`: repair, then the business-rule
validation, returning the repaired paper when validation passes. -/
def parseAndValidateResponse (raw : String) (req : QuestionGenerationRequest) :
    Except String GeneratedQuestionPaper :=
  match repairResponse raw req with
  | .error e => .error e
  | .ok qp =>
    match validateQuestionPaper qp (questionLimits req.test_type) req.modules with
    | .error e => .error ("Response validation failed: " ++ e)
    | .ok _ => .ok qp

/-! ## `_create_generation_prompt` and the orchestrator -/

/-- json.dumps of a list of strings (default separators). -/
def jsonDumpsStrList (l : List String) : String :=
  "[" ++ String.intercalate ", " (l.map (fun s => "\"" ++ s ++ "\"")) ++ "]"

/-- `_get_test_type_rules`. -/
def getTestTypeRules : TestType → String
  | .CAT1 =>
    "\nCAT-1 RULES:\n- Level 1: Generate one opinion-based general question from syllabus scenario\n- Level 2: Generate one 10-mark no-subdivision question based on basic module knowledge  \n- Level 3: Generate one or two derivation-based or solving-based 10-mark no-subdivision questions\n- Level 4: Generate one or two questions with 2+ subdivisions, each logically connected and formula-based\n- All questions must be directly based on the syllabus content provided\n- Focus on practical application scenarios from the modules\n"
  | .CAT2 =>
    "\nCAT-2 RULES:\n- Level 1: Generate one or two real-world scenario-based questions without specifying algorithms/methods\n- Level 2: For coding modules, generate complex coding scenarios requiring lengthy solutions\n- Level 3: Generate two scenario-based questions with 2-3 subdivisions requiring deep logical analysis\n- Questions should force students to think about what concepts to apply\n- Higher-order thinking and analytical skills required\n- Scenarios must be realistic and challenging\n"
  | .FAT =>
    "\nFAT RULES:\n- 7 out of 10 questions must follow CAT-1 rules and be syllabus-based\n- Remaining 3 questions must follow CAT-2 rules requiring deeper logical thinking\n- Mix of basic knowledge, derivations, and advanced analytical questions\n- Comprehensive coverage of all selected modules\n- Balance between theoretical knowledge and practical application\n"

/-- `_create_generation_prompt`: the literal prompt f-string, with the
test-type profile numbers, module list, rules block, extracted content and
JSON template interpolated. -/
def createGenerationPrompt (req : QuestionGenerationRequest) : String :=
  let testConfig := questionLimits req.test_type
  let moduleContent := extractModuleContent req.syllabus_text req.modules
  let modulesStr := String.intercalate ", " req.modules
  "You are an expert exam paper generator. Generate a " ++ req.test_type.value ++
  " question paper with EXACTLY " ++ decRepr testConfig.count ++ " questions.\n\n" ++
  "🚨 CRITICAL RESTRICTION 🚨\nONLY GENERATE QUESTIONS FROM: " ++ modulesStr ++
  "\nDO NOT USE ANY OTHER MODULES OR CONTENT\nDO NOT USE YOUR BACKGROUND KNOWLEDGE - ONLY USE THE CONTENT SHOWN BELOW\n\n" ++
  "STRICT REQUIREMENTS:\n- Each question must be exactly " ++ intRepr testConfig.marks_each ++
  " marks  \n- Total paper marks: " ++ intRepr testConfig.total ++
  "\n- Generate questions EXCLUSIVELY from the module content provided below\n- Each question must be tagged with ONLY these modules: " ++
  modulesStr ++
  "\n- FORBIDDEN: Using content from any other modules\n- FORBIDDEN: Using concepts not explicitly mentioned in the module content below\n- FORBIDDEN: Using any topic, concept, or terminology not explicitly listed in the provided content\n- Output ONLY valid JSON, no explanations\n\n" ++
  getTestTypeRules req.test_type ++
  "\n\nALLOWED MODULE CONTENT (USE ONLY THIS):\n" ++ moduleContent ++
  "\n\n🔒 ABSOLUTE MODULE RESTRICTION 🔒\nALLOWED MODULES: " ++ modulesStr ++
  "\nFORBIDDEN: All other modules\nFORBIDDEN: Your general knowledge about any subject\n\n" ++
  "ULTRA-STRICT CONTENT RULES:\n- Read the module content above carefully\n- ONLY create questions about topics explicitly mentioned in that content  \n- If you\x27re not sure if a concept is mentioned, DON\x27T use it\n- Stick to the exact words and topics from the provided content\n- Examples: If \"LED\" is mentioned, you can ask about LED. If \"timer\" is NOT mentioned, you CANNOT ask about timers\n\n" ++
  "MODULE REQUIREMENTS:\n- Distribute questions ONLY across: " ++ modulesStr ++
  "\n- Each question \"module\" field must contain ONLY: " ++ modulesStr ++
  "\n- Zero tolerance for other module content or external knowledge\n\n" ++
  "REQUIRED JSON FORMAT (copy exactly, replace content):\n\x7b\n  \"metadata\": \x7b\n    \"title\": \"" ++
  req.test_type.value ++ " Question Paper - " ++ modulesStr ++
  "\",\n    \"test_type\": \"" ++ req.test_type.value ++
  "\",\n    \"modules\": " ++ jsonDumpsStrList req.modules ++
  ",\n    \"total_marks\": " ++ intRepr testConfig.total ++
  ",\n    \"notes\": \"Generated EXCLUSIVELY from " ++ modulesStr ++
  "\"\n  \x7d,\n  \"paper\": [\n    \x7b\n      \"q_no\": 1,\n      \"marks\": " ++
  intRepr testConfig.marks_each ++
  ",\n      \"parts\": [\n        \x7b\n          \"label\": null,\n          \"marks\": " ++
  intRepr testConfig.marks_each ++
  ",\n          \"text\": \"Question based STRICTLY on " ++ modulesStr ++
  " content only...\",\n          \"module\": [\"" ++ req.modules.headD "Module 1" ++
  "\"]\n        \x7d\n      ],\n      \"instructions\": null\n    \x7d\n  ],\n  \"validation\": \x7b\n    \"total_marks_check\": " ++
  intRepr testConfig.total ++
  ",\n    \"unique_questions\": true\n  \x7d\n\x7d\n\n" ++
  "⚠️ FINAL WARNING ⚠️\nGenerate " ++ decRepr testConfig.count ++
  " questions with ABSOLUTE compliance:\n1. Content source: ONLY the " ++ modulesStr ++
  " content above\n2. Module tags: ONLY from " ++ modulesStr ++
  " \n3. Forbidden: Any reference to other modules\n4. Follow " ++ req.test_type.value ++
  " complexity rules\n5. If in doubt, prefer basic questions from allowed modules over advanced questions from forbidden modules"

/-- `_generate_with_ollama`: the external completion capability, passed in
as a function; the result is stripped, transport failures are re-raised
with the fixed prefix. -/
def generateWithOllama (llm : String → Except String String) (prompt : String) :
    Except String String :=
  match llm prompt with
  | .ok response => .ok (pyStrip response)
  | .error e => .error ("Question generation failed: " ++ e)

/-- The try-block of generate_question_paper: prompt, generation, repair
and validation in sequence; the first failure aborts the pipeline. -/
def runPipeline (llm : String → Except String String)
    (req : QuestionGenerationRequest) : Except String GeneratedQuestionPaper :=
  match generateWithOllama llm (createGenerationPrompt req) with
  | .error e => .error e
  | .ok raw => parseAndValidateResponse raw req

/-- generate_question_paper: the orchestrator boundary.  tStart and tEnd
are the two clock readings; both response paths record their difference. -/
def generateQuestionPaper (llm : String → Except String String)
    (req : QuestionGenerationRequest) (tStart tEnd : Int) :
    QuestionGenerationResponse :=
  match runPipeline llm req with
  | .ok qp =>
    { success := true
      message := "Question paper generated successfully"
      question_paper := some qp
      processing_time := tEnd - tStart
      agent_used := "ollama_question_generator" }
  | .error e =>
    { success := false
      message := "Generation failed: " ++ e
      question_paper := none
      processing_time := tEnd - tStart
      agent_used := "none" }

/-- C1: for every materialized paper and active test-type profile, the
business-rule validation errors exactly when the question count, some
question's marks, or the total marks deviate from the profile; and when the
hard checks pass but the union of part module tags misses the requested set
entirely, it returns ok with the warning flag set — the paper still flows
back to the caller. -/
theorem validateQuestionPaper_spec (qp : GeneratedQuestionPaper) (t : TestType)
    (requestedModules : List String) :
    ((∃ e, validateQuestionPaper qp (questionLimits t) requestedModules =
        Except.error e) ↔
      (qp.paper.length ≠ (questionLimits t).count ∨
       (∃ q ∈ qp.paper, q.marks ≠ (questionLimits t).marks_each) ∨
       (qp.paper.map Question.marks).sum ≠ (questionLimits t).total)) ∧
    (qp.paper.length = (questionLimits t).count →
     (∀ q ∈ qp.paper, q.marks = (questionLimits t).marks_each) →
     (qp.paper.map Question.marks).sum = (questionLimits t).total →
     (∀ m ∈ qp.paper.flatMap (fun q => q.parts.flatMap QuestionPart.module),
        m ∉ requestedModules) →
     validateQuestionPaper qp (questionLimits t) requestedModules =
       Except.ok true) := by
  constructor
  · by_cases h1 : qp.paper.length = (questionLimits t).count
    · by_cases h2 : (qp.paper.map Question.marks).sum = (questionLimits t).total
      · cases hf : qp.paper.find? (fun q => q.marks != (questionLimits t).marks_each) with
        | some q =>
          have hmem := List.mem_of_find?_eq_some hf
          have hpred := List.find?_some hf
          have hne : q.marks ≠ (questionLimits t).marks_each := by
            simpa using hpred
          constructor
          · intro _
            exact Or.inr (Or.inl ⟨q, hmem, hne⟩)
          · intro _
            simp [validateQuestionPaper, h1, h2, hf]
        | none =>
          constructor
          · rintro ⟨e, he⟩
            simp [validateQuestionPaper, h1, h2, hf] at he
          · rintro (h | ⟨q, hq, hne⟩ | h)
            · exact absurd h1 h
            · have := List.find?_eq_none.mp hf q hq
              simp at this
              exact absurd this hne
            · exact absurd h2 h
      · constructor
        · intro _
          exact Or.inr (Or.inr h2)
        · intro _
          simp [validateQuestionPaper, h1, h2]
    · constructor
      · intro _
        exact Or.inl h1
      · intro _
        simp [validateQuestionPaper, h1]
  · intro h1 h2 h3 hcov
    have hf : qp.paper.find? (fun q => q.marks != (questionLimits t).marks_each) = none := by
      rw [List.find?_eq_none]
      intro q hq
      simp [h2 q hq]
    have hany : (qp.paper.flatMap (fun q => q.parts.flatMap QuestionPart.module)).any
        (fun m => requestedModules.contains m) = false := by
      rw [List.any_eq_false]
      intro m hm
      simpa using hcov m hm
    have hval : validateQuestionPaper qp (questionLimits t) requestedModules =
        Except.ok (!(qp.paper.flatMap (fun q => q.parts.flatMap QuestionPart.module)).any
          (fun m => requestedModules.contains m)) := by
      simp [validateQuestionPaper, h1, h3, hf]
    rw [hval, hany]
    rfl

/-- A concrete in-profile paper whose parts are all tagged with a module
outside the requested set. -/
def offTopicPart : QuestionPart :=
  ⟨none, 10, "Explain the main concept in detail", ["Module 2"]⟩

/-- A concrete question built on `offTopicPart`. -/
def offTopicQuestion (i : Int) : Question :=
  ⟨i, 10, [offTopicPart], none⟩

/-- A concrete CAT-1-shaped paper used by the C1 witness. -/
def offTopicPaper : GeneratedQuestionPaper :=
  ⟨⟨"CAT-1 Question Paper", .CAT1, ["Module 1"], 50, none⟩,
   [offTopicQuestion 1, offTopicQuestion 2, offTopicQuestion 3,
    offTopicQuestion 4, offTopicQuestion 5],
   ⟨50, true⟩⟩

/-- Witness for C1: the concrete off-topic paper passes validation with the
warning flag set. -/
theorem validateQuestionPaper_spec_witness :
    validateQuestionPaper offTopicPaper (questionLimits .CAT1) ["Module 1"] =
      Except.ok true :=
  (validateQuestionPaper_spec offTopicPaper .CAT1 ["Module 1"]).2
    (by decide) (by decide) (by decide) (by decide)

/-- C3: for every generation capability, request and pair of clock
readings, the orchestrator records the elapsed time on both outcome paths,
converts any pipeline failure into a structured response with success
false, the failure message and a null paper (no exception escapes), and
wraps any pipeline success into a success response carrying the paper. -/
theorem generateQuestionPaper_uniform_boundary
    (llm : String → Except String String) (req : QuestionGenerationRequest)
    (tStart tEnd : Int) :
    (generateQuestionPaper llm req tStart tEnd).processing_time = tEnd - tStart ∧
    (∀ e, runPipeline llm req = Except.error e →
      (generateQuestionPaper llm req tStart tEnd).success = false ∧
      (generateQuestionPaper llm req tStart tEnd).message = "Generation failed: " ++ e ∧
      (generateQuestionPaper llm req tStart tEnd).question_paper = none) ∧
    (∀ qp, runPipeline llm req = Except.ok qp →
      (generateQuestionPaper llm req tStart tEnd).success = true ∧
      (generateQuestionPaper llm req tStart tEnd).question_paper = some qp) := by
  cases hr : runPipeline llm req with
  | ok qp =>
    refine ⟨by simp [generateQuestionPaper, hr], ?_, ?_⟩
    · intro e he
      exact Except.noConfusion he
    · intro qp2 hq
      cases hq
      exact ⟨by simp [generateQuestionPaper, hr], by simp [generateQuestionPaper, hr]⟩
  | error e =>
    refine ⟨by simp [generateQuestionPaper, hr], ?_, ?_⟩
    · intro e2 he
      cases he
      exact ⟨by simp [generateQuestionPaper, hr], by simp [generateQuestionPaper, hr],
        by simp [generateQuestionPaper, hr]⟩
    · intro qp hq
      exact Except.noConfusion hq

/-- Witness for C3: a failing generation capability yields the structured
failure response with the elapsed time recorded. -/
theorem generateQuestionPaper_uniform_boundary_witness :
    (generateQuestionPaper (fun _ => Except.error "boom")
        ⟨"Module 1: alpha", .CAT1, ["Module 1"]⟩ 0 5).processing_time = 5 - 0 ∧
    (generateQuestionPaper (fun _ => Except.error "boom")
        ⟨"Module 1: alpha", .CAT1, ["Module 1"]⟩ 0 5).success = false ∧
    (generateQuestionPaper (fun _ => Except.error "boom")
        ⟨"Module 1: alpha", .CAT1, ["Module 1"]⟩ 0 5).message =
      "Generation failed: Question generation failed: boom" ∧
    (generateQuestionPaper (fun _ => Except.error "boom")
        ⟨"Module 1: alpha", .CAT1, ["Module 1"]⟩ 0 5).question_paper = none := by
  have h := (generateQuestionPaper_uniform_boundary (fun _ => Except.error "boom")
    ⟨"Module 1: alpha", .CAT1, ["Module 1"]⟩ 0 5)
  have hfail := h.2.1 "Question generation failed: boom" rfl
  exact ⟨h.1, hfail.1, hfail.2.1, hfail.2.2⟩

/-! ## Lookup lemmas for the JSON object operations -/

theorem jlookup_append (xs ys : List (String × Json)) (key : String) :
    jlookup (xs ++ ys) key =
      match jlookup xs key with
      | some v => some v
      | none => jlookup ys key := by
  induction xs with
  | nil => rfl
  | cons p rest ih =>
    obtain ⟨k, v⟩ := p
    by_cases hk : k = key
    · simp [jlookup, hk]
    · simp [jlookup, hk, ih]

theorem jlookup_jSetdefault_self (kvs : List (String × Json)) (key : String) (v : Json) :
    jlookup (jSetdefault kvs key v) key = some ((jlookup kvs key).getD v) := by
  unfold jSetdefault
  cases h : jlookup kvs key with
  | some w => simp [h]
  | none => rw [jlookup_append, h]; simp [jlookup]

theorem jlookup_jSetdefault_other (kvs : List (String × Json)) (key : String)
    (v : Json) (key' : String) (h : key' ≠ key) :
    jlookup (jSetdefault kvs key v) key' = jlookup kvs key' := by
  unfold jSetdefault
  cases hk : jlookup kvs key with
  | some w => rfl
  | none =>
    rw [jlookup_append]
    cases hk' : jlookup kvs key' with
    | some w => rfl
    | none => simp [jlookup, Ne.symm h]

theorem jlookup_jInsert_self (kvs : List (String × Json)) (key : String) (v : Json) :
    jlookup (jInsert kvs key v) key = some v := by
  induction kvs with
  | nil => simp [jInsert, jlookup]
  | cons p rest ih =>
    obtain ⟨k, w⟩ := p
    by_cases hk : k = key
    · simp [jInsert, hk, jlookup]
    · simp [jInsert, hk, jlookup, ih]

theorem jlookup_jInsert_other (kvs : List (String × Json)) (key : String)
    (v : Json) (key' : String) (h : key' ≠ key) :
    jlookup (jInsert kvs key v) key' = jlookup kvs key' := by
  induction kvs with
  | nil => simp [jInsert, jlookup, Ne.symm h]
  | cons p rest ih =>
    obtain ⟨k, w⟩ := p
    by_cases hk : k = key
    · subst hk
      simp [jInsert, jlookup, Ne.symm h]
    · by_cases hk' : k = key'
      · subst hk'
        simp [jInsert, hk, jlookup]
      · simp [jInsert, hk, jlookup, hk', ih]

theorem defaultPaperAux_getElem? (cfg : TestConfig) (modules : List String)
    (qs : List Json) : ∀ (j i : Nat),
    (defaultPaperAux cfg modules j qs)[i]? =
      (qs[i]?).map (defaultQuestion cfg modules (j + i)) := by
  induction qs with
  | nil => intro j i; simp [defaultPaperAux]
  | cons q rest ih =>
    intro j i
    cases i with
    | zero => simp [defaultPaperAux]
    | succ n =>
      simp only [defaultPaperAux, List.getElem?_cons_succ, ih (j + 1) n]
      have : j + 1 + n = j + (n + 1) := by omega
      rw [this]

theorem defaultPaperAux_length (cfg : TestConfig) (modules : List String)
    (qs : List Json) : ∀ j : Nat,
    (defaultPaperAux cfg modules j qs).length = qs.length := by
  induction qs with
  | nil => intro j; rfl
  | cons q rest ih => intro j; simp [defaultPaperAux, ih (j + 1)]

theorem defaultPart_obj_spec (parentMarks : Json) (qnoStr : String)
    (modules : List String) (p : List (String × Json)) :
    ∃ p2, defaultPart parentMarks qnoStr modules (Json.obj p) = Json.obj p2 ∧
      jlookup p2 "label" = some ((jlookup p "label").getD Json.null) ∧
      jlookup p2 "marks" = some ((jlookup p "marks").getD parentMarks) ∧
      jlookup p2 "text" = some ((jlookup p "text").getD
        (Json.str ("Question " ++ qnoStr ++ " content"))) ∧
      jlookup p2 "module" = some ((jlookup p "module").getD
        (Json.arr ((modules.take 1).map Json.str))) := by
  refine ⟨_, rfl, ?_, ?_, ?_, ?_⟩
  · rw [jlookup_jSetdefault_other _ "module" _ "label" (by decide),
      jlookup_jSetdefault_other _ "text" _ "label" (by decide),
      jlookup_jSetdefault_other _ "marks" _ "label" (by decide),
      jlookup_jSetdefault_self]
  · rw [jlookup_jSetdefault_other _ "module" _ "marks" (by decide),
      jlookup_jSetdefault_other _ "text" _ "marks" (by decide),
      jlookup_jSetdefault_self,
      jlookup_jSetdefault_other _ "label" _ "marks" (by decide)]
  · rw [jlookup_jSetdefault_other _ "module" _ "text" (by decide),
      jlookup_jSetdefault_self,
      jlookup_jSetdefault_other _ "marks" _ "text" (by decide),
      jlookup_jSetdefault_other _ "label" _ "text" (by decide)]
  · rw [jlookup_jSetdefault_self,
      jlookup_jSetdefault_other _ "text" _ "module" (by decide),
      jlookup_jSetdefault_other _ "marks" _ "module" (by decide),
      jlookup_jSetdefault_other _ "label" _ "module" (by decide)]

theorem defaultQuestion_obj_spec (cfg : TestConfig) (modules : List String)
    (i : Nat) (q : List (String × Json)) :
    ∃ q2, defaultQuestion cfg modules i (Json.obj q) = Json.obj q2 ∧
      jlookup q2 "q_no" = some ((jlookup q "q_no").getD (Json.num (Int.ofNat (i + 1)))) ∧
      jlookup q2 "marks" = some ((jlookup q "marks").getD (Json.num cfg.marks_each)) ∧
      jlookup q2 "instructions" = some ((jlookup q "instructions").getD Json.null) ∧
      (∀ ps, jlookup q "parts" = some (Json.arr ps) →
        jlookup q2 "parts" = some (Json.arr (ps.map (defaultPart
          ((jlookup q "marks").getD (Json.num cfg.marks_each))
          (pyStrOf ((jlookup q "q_no").getD (Json.num (Int.ofNat (i + 1)))))
          modules)))) ∧
      ((match jlookup q "parts" with
        | some (Json.arr _) => False
        | _ => True) →
        jlookup q2 "parts" = some (Json.arr [])) := by
  have hmarks3 : jlookup (jSetdefault (jSetdefault (jSetdefault q
      "q_no" (Json.num (Int.ofNat (i + 1)))) "marks" (Json.num cfg.marks_each))
        "instructions" Json.null) "marks" =
      some ((jlookup q "marks").getD (Json.num cfg.marks_each)) := by
    rw [jlookup_jSetdefault_other _ "instructions" _ "marks" (by decide),
      jlookup_jSetdefault_self,
      jlookup_jSetdefault_other _ "q_no" _ "marks" (by decide)]
  have hqno3 : jlookup (jSetdefault (jSetdefault (jSetdefault q
      "q_no" (Json.num (Int.ofNat (i + 1)))) "marks" (Json.num cfg.marks_each))
        "instructions" Json.null) "q_no" =
      some ((jlookup q "q_no").getD (Json.num (Int.ofNat (i + 1)))) := by
    rw [jlookup_jSetdefault_other _ "instructions" _ "q_no" (by decide),
      jlookup_jSetdefault_other _ "marks" _ "q_no" (by decide),
      jlookup_jSetdefault_self]
  have hparts3 : jlookup (jSetdefault (jSetdefault (jSetdefault q
      "q_no" (Json.num (Int.ofNat (i + 1)))) "marks" (Json.num cfg.marks_each))
        "instructions" Json.null) "parts" = jlookup q "parts" := by
    rw [jlookup_jSetdefault_other _ "instructions" _ "parts" (by decide),
      jlookup_jSetdefault_other _ "marks" _ "parts" (by decide),
      jlookup_jSetdefault_other _ "q_no" _ "parts" (by decide)]
  refine ⟨_, rfl, ?_, ?_, ?_, ?_, ?_⟩
  · rw [jlookup_jInsert_other _ "parts" _ "q_no" (by decide), hqno3]
  · rw [jlookup_jInsert_other _ "parts" _ "marks" (by decide), hmarks3]
  · rw [jlookup_jInsert_other _ "parts" _ "instructions" (by decide),
      jlookup_jSetdefault_self,
      jlookup_jSetdefault_other _ "marks" _ "instructions" (by decide),
      jlookup_jSetdefault_other _ "q_no" _ "instructions" (by decide)]
  · intro ps hps
    rw [jlookup_jInsert_self, hparts3, hps, hmarks3, hqno3]
    simp
  · intro habs
    rw [jlookup_jInsert_self, hparts3]
    cases hq : jlookup q "parts" with
    | none => simp
    | some v =>
      rw [hq] at habs
      cases v with
      | arr ps => exact absurd habs (by simp)
      | null => simp
      | bool b => simp
      | num n => simp
      | str s => simp
      | obj kvs => simp

theorem applyDefaultsTail_paper (kvsA : List (String × Json)) (t : TestType)
    (modules : List String) (qs : List Json) :
    jlookup (applyDefaultsTail kvsA t modules qs) "paper" =
      some (Json.arr (defaultPaperAux (questionLimits t) modules 0 qs)) := by
  unfold applyDefaultsTail
  rw [jlookup_jInsert_self]

/-- C7: the deterministic defaulting of the repair step.  When the parsed
response's paper field is a list, the defaulting rewrites it elementwise in
position order; every question object gets q_no defaulted to its 1-based
position, marks to the profile's per-question value, and a missing or
non-list parts field replaced by the empty list; every part object gets
label defaulted to null, marks to the parent question's (possibly just
defaulted) marks, text to a placeholder naming the question number, and
module to the first requested module label. -/
theorem repairDefaulting_spec (t : TestType) (modules : List String) :
    (∀ (kvs : List (String × Json)) (qs : List Json),
      jlookup kvs "paper" = some (Json.arr qs) →
      jlookup (applyDefaults kvs t modules) "paper" =
          some (Json.arr (defaultPaperAux (questionLimits t) modules 0 qs)) ∧
        (defaultPaperAux (questionLimits t) modules 0 qs).length = qs.length ∧
        ∀ i : Nat, (defaultPaperAux (questionLimits t) modules 0 qs)[i]? =
          (qs[i]?).map (defaultQuestion (questionLimits t) modules i)) ∧
    (∀ (i : Nat) (q : List (String × Json)),
      ∃ q2, defaultQuestion (questionLimits t) modules i (Json.obj q) = Json.obj q2 ∧
        jlookup q2 "q_no" = some ((jlookup q "q_no").getD (Json.num (Int.ofNat (i + 1)))) ∧
        jlookup q2 "marks" = some ((jlookup q "marks").getD
          (Json.num (questionLimits t).marks_each)) ∧
        (∀ ps, jlookup q "parts" = some (Json.arr ps) →
          jlookup q2 "parts" = some (Json.arr (ps.map (defaultPart
            ((jlookup q "marks").getD (Json.num (questionLimits t).marks_each))
            (pyStrOf ((jlookup q "q_no").getD (Json.num (Int.ofNat (i + 1)))))
            modules)))) ∧
        ((match jlookup q "parts" with
          | some (Json.arr _) => False
          | _ => True) →
          jlookup q2 "parts" = some (Json.arr []))) ∧
    (∀ (parentMarks : Json) (qnoStr : String) (p : List (String × Json)),
      ∃ p2, defaultPart parentMarks qnoStr modules (Json.obj p) = Json.obj p2 ∧
        jlookup p2 "label" = some ((jlookup p "label").getD Json.null) ∧
        jlookup p2 "marks" = some ((jlookup p "marks").getD parentMarks) ∧
        jlookup p2 "text" = some ((jlookup p "text").getD
          (Json.str ("Question " ++ qnoStr ++ " content"))) ∧
        jlookup p2 "module" = some ((jlookup p "module").getD
          (Json.arr ((modules.take 1).map Json.str)))) := by
  refine ⟨?_, ?_, ?_⟩
  · intro kvs qs h
    refine ⟨?_, defaultPaperAux_length _ _ _ 0, ?_⟩
    · simp only [applyDefaults, h]
      rw [applyDefaultsTail_paper]
    · intro i
      rw [defaultPaperAux_getElem?]
      simp
  · intro i q
    obtain ⟨q2, hq2, h1, h2, _, h4, h5⟩ := defaultQuestion_obj_spec (questionLimits t) modules i q
    exact ⟨q2, hq2, h1, h2, h4, h5⟩
  · intro parentMarks qnoStr p
    exact defaultPart_obj_spec parentMarks qnoStr modules p

/-- Witness for C7 at a concrete parsed object: one empty question object;
its q_no, marks and parts are all filled by the defaulting. -/
theorem repairDefaulting_spec_witness :
    jlookup (applyDefaults
        [("metadata", Json.obj []), ("paper", Json.arr [Json.obj []]),
          ("validation", Json.obj [])] .CAT1 ["Module 1"]) "paper" =
      some (Json.arr (defaultPaperAux (questionLimits .CAT1) ["Module 1"] 0
        [Json.obj []])) := by
  exact ((repairDefaulting_spec .CAT1 ["Module 1"]).1
    [("metadata", Json.obj []), ("paper", Json.arr [Json.obj []]),
      ("validation", Json.obj [])] [Json.obj []] rfl).1

/-! ## Healable shapes: what the defaulting can provably repair -/

/-- Is the value a JSON string. -/
def isStrJson : Json → Bool
  | .str _ => true
  | _ => false

/-- A field that is absent, null, or a string. -/
def optFieldStr (kvs : List (String × Json)) (k : String) : Bool :=
  match jlookup kvs k with
  | none => true
  | some Json.null => true
  | some (Json.str _) => true
  | _ => false

/-- A part object the defaulting can heal: each present field is already
valid for the typed QuestionPart; absent fields are left to the defaults. -/
def partHealable (p : Json) : Bool :=
  match p with
  | Json.obj kvs =>
    optFieldStr kvs "label" &&
    (match jlookup kvs "marks" with
     | none => true
     | some (Json.num n) => decide (1 ≤ n ∧ n ≤ 10)
     | _ => false) &&
    (match jlookup kvs "text" with
     | none => true
     | some (Json.str s) => decide (10 ≤ s.length)
     | _ => false) &&
    (match jlookup kvs "module" with
     | none => true
     | some (Json.arr xs) => xs.all isStrJson
     | _ => false)
  | _ => false

/-- A question object the defaulting can heal: valid present fields, and a
parts field that is a non-empty list of healable part objects (the typed
Question requires at least one part, and the empty-list default cannot
satisfy that). -/
def questionHealable (q : Json) : Bool :=
  match q with
  | Json.obj kvs =>
    (match jlookup kvs "q_no" with
     | none => true
     | some (Json.num n) => decide (1 ≤ n)
     | _ => false) &&
    (match jlookup kvs "marks" with
     | none => true
     | some (Json.num n) => decide (1 ≤ n ∧ n ≤ 10)
     | _ => false) &&
    optFieldStr kvs "instructions" &&
    (match jlookup kvs "parts" with
     | some (Json.arr ps) => !ps.isEmpty && ps.all partHealable
     | _ => false)
  | _ => false

/-- The metadata field is either not a dict (it is then replaced wholesale
by defaults) or a dict whose present fields are valid. -/
def metadataHealable (kvs : List (String × Json)) : Bool :=
  match jlookup kvs "metadata" with
  | some (Json.obj m) =>
    (match jlookup m "title" with
     | none => true
     | some (Json.str s) => decide (1 ≤ s.length)
     | _ => false) &&
    (match jlookup m "test_type" with
     | none => true
     | some (Json.str s) => s == "CAT-1" || s == "CAT-2" || s == "FAT"
     | _ => false) &&
    (match jlookup m "modules" with
     | none => true
     | some (Json.arr xs) => !xs.isEmpty && xs.all isStrJson
     | _ => false) &&
    (match jlookup m "total_marks" with
     | none => true
     | some (Json.num n) => decide (1 ≤ n)
     | _ => false) &&
    optFieldStr m "notes"
  | some _ => true
  | none => false

/-- The validation field is either not a dict (replaced wholesale) or a
dict whose present fields are valid. -/
def validationHealable (kvs : List (String × Json)) : Bool :=
  match jlookup kvs "validation" with
  | some (Json.obj m) =>
    (match jlookup m "total_marks_check" with
     | none => true
     | some (Json.num _) => true
     | _ => false) &&
    (match jlookup m "unique_questions" with
     | none => true
     | some (Json.bool _) => true
     | _ => false)
  | some _ => true
  | none => false

/-- Bool test for success of an Except value. -/
def exceptOk {ε α : Type} : Except ε α → Bool
  | .ok _ => true
  | .error _ => false

theorem buildStrList_map_str (l : List String) :
    buildStrList (l.map Json.str) = Except.ok l := by
  induction l with
  | nil => rfl
  | cons s rest ih => simp [buildStrList, ih]

theorem buildStrList_all_str (xs : List Json) (h : xs.all isStrJson = true) :
    ∃ l, buildStrList xs = Except.ok l ∧ l.length = xs.length := by
  induction xs with
  | nil => exact ⟨[], rfl, rfl⟩
  | cons x rest ih =>
    rw [List.all_cons, Bool.and_eq_true] at h
    obtain ⟨l, hl, hlen⟩ := ih h.2
    cases x with
    | str s => exact ⟨s :: l, by simp [buildStrList, hl], by simp [hlen]⟩
    | null => simp [isStrJson] at h
    | bool b => simp [isStrJson] at h
    | num n => simp [isStrJson] at h
    | arr a => simp [isStrJson] at h
    | obj o => simp [isStrJson] at h

theorem buildOptStr_healable (kvs : List (String × Json)) (k : String)
    (h : optFieldStr kvs k = true) :
    ∃ o, buildOptStr (some ((jlookup kvs k).getD Json.null)) = Except.ok o := by
  unfold optFieldStr at h
  cases hk : jlookup kvs k with
  | none => exact ⟨none, rfl⟩
  | some v =>
    rw [hk] at h
    cases v with
    | null => exact ⟨none, rfl⟩
    | str s => exact ⟨some s, rfl⟩
    | bool b => simp at h
    | num n => simp at h
    | arr a => simp at h
    | obj o => simp at h

theorem marksField_healable (kvs : List (String × Json)) (k : String) (d : Int)
    (hd1 : 1 ≤ d) (hd2 : d ≤ 10)
    (h : (match jlookup kvs k with
          | none => true
          | some (Json.num n) => decide (1 ≤ n ∧ n ≤ 10)
          | _ => false) = true) :
    ∃ n, (jlookup kvs k).getD (Json.num d) = Json.num n ∧ 1 ≤ n ∧ n ≤ 10 := by
  cases hk : jlookup kvs k with
  | none => exact ⟨d, rfl, hd1, hd2⟩
  | some v =>
    rw [hk] at h
    cases v with
    | num n =>
      refine ⟨n, rfl, ?_⟩
      exact of_decide_eq_true h
    | null => simp at h
    | bool b => simp at h
    | str s => simp at h
    | arr a => simp at h
    | obj o => simp at h

theorem map_str_all_isStr (l : List String) : (l.map Json.str).all isStrJson = true := by
  induction l with
  | nil => rfl
  | cons s rest ih => simp [isStrJson, ih]

theorem buildQuestionPart_default_ok (m : Int) (hm1 : 1 ≤ m) (hm2 : m ≤ 10)
    (qnoStr : String) (mods : List String) (p : Json)
    (hp : partHealable p = true) :
    ∃ x, buildQuestionPart (defaultPart (Json.num m) qnoStr mods p) = Except.ok x := by
  cases p with
  | obj kvs =>
    obtain ⟨p2, hp2, hl, hmk, ht, hmd⟩ := defaultPart_obj_spec (Json.num m) qnoStr mods kvs
    rw [hp2]
    unfold partHealable at hp
    rw [Bool.and_eq_true, Bool.and_eq_true, Bool.and_eq_true] at hp
    obtain ⟨⟨⟨hLabel, hMarks⟩, hText⟩, hModule⟩ := hp
    obtain ⟨label, hlabel⟩ := buildOptStr_healable kvs "label" hLabel
    obtain ⟨n, hn, hn1, hn2⟩ := marksField_healable kvs "marks" m hm1 hm2 hMarks
    have htext : ∃ s, (jlookup kvs "text").getD
        (Json.str ("Question " ++ qnoStr ++ " content")) = Json.str s ∧ 10 ≤ s.length := by
      cases hk : jlookup kvs "text" with
      | none =>
        refine ⟨_, rfl, ?_⟩
        rw [String.length_append, String.length_append]
        have h9 : ("Question " : String).length = 9 := by decide
        have h8 : (" content" : String).length = 8 := by decide
        omega
      | some v =>
        rw [hk] at hText
        cases v with
        | str s => exact ⟨s, rfl, of_decide_eq_true hText⟩
        | null => simp at hText
        | bool b => simp at hText
        | num n => simp at hText
        | arr a => simp at hText
        | obj o => simp at hText
    obtain ⟨s, hs, hs10⟩ := htext
    have hmodule : ∃ xs : List Json, (jlookup kvs "module").getD
        (Json.arr ((mods.take 1).map Json.str)) = Json.arr xs ∧ xs.all isStrJson = true := by
      cases hk : jlookup kvs "module" with
      | none => exact ⟨_, rfl, map_str_all_isStr (mods.take 1)⟩
      | some v =>
        rw [hk] at hModule
        cases v with
        | arr xs => exact ⟨xs, rfl, hModule⟩
        | null => simp at hModule
        | bool b => simp at hModule
        | num n => simp at hModule
        | str s => simp at hModule
        | obj o => simp at hModule
    obtain ⟨xs, hxs, hxsall⟩ := hmodule
    obtain ⟨strs, hstrs, _⟩ := buildStrList_all_str xs hxsall
    refine ⟨⟨label, n, s, strs⟩, ?_⟩
    simp only [buildQuestionPart, hl, hmk, ht, hmd, hn, hs, hxs, hlabel, hstrs]
    rw [if_pos ⟨hn1, hn2⟩, if_pos hs10]
  | null => simp [partHealable] at hp
  | bool b => simp [partHealable] at hp
  | num n => simp [partHealable] at hp
  | str s => simp [partHealable] at hp
  | arr a => simp [partHealable] at hp

theorem buildQuestionParts_map_ok (m : Int) (hm1 : 1 ≤ m) (hm2 : m ≤ 10)
    (qnoStr : String) (mods : List String) (ps : List Json)
    (h : ps.all partHealable = true) :
    ∃ l, buildQuestionParts (ps.map (defaultPart (Json.num m) qnoStr mods)) =
        Except.ok l ∧ l.length = ps.length := by
  induction ps with
  | nil => exact ⟨[], rfl, rfl⟩
  | cons p rest ih =>
    rw [List.all_cons, Bool.and_eq_true] at h
    obtain ⟨x, hx⟩ := buildQuestionPart_default_ok m hm1 hm2 qnoStr mods p h.1
    obtain ⟨l, hl, hlen⟩ := ih h.2
    exact ⟨x :: l, by simp [buildQuestionParts, hx, hl], by simp [hlen]⟩

theorem buildQuestion_default_ok (t : TestType) (mods : List String) (i : Nat)
    (q : Json) (hq : questionHealable q = true) :
    ∃ x, buildQuestion (defaultQuestion (questionLimits t) mods i q) = Except.ok x := by
  cases q with
  | obj kvs =>
    obtain ⟨q2, hq2, hqnoEq, hmarksEq, hinstrEq, hpresent, _⟩ :=
      defaultQuestion_obj_spec (questionLimits t) mods i kvs
    rw [hq2]
    unfold questionHealable at hq
    rw [Bool.and_eq_true, Bool.and_eq_true, Bool.and_eq_true] at hq
    obtain ⟨⟨⟨hQno, hMarks⟩, hInstr⟩, hParts⟩ := hq
    have hme : 1 ≤ (questionLimits t).marks_each ∧ (questionLimits t).marks_each ≤ 10 := by
      cases t <;> exact ⟨by decide, by decide⟩
    obtain ⟨pm, hpm, hpm1, hpm2⟩ :=
      marksField_healable kvs "marks" (questionLimits t).marks_each hme.1 hme.2 hMarks
    have hqno : ∃ n, (jlookup kvs "q_no").getD (Json.num (Int.ofNat (i + 1))) =
        Json.num n ∧ 1 ≤ n := by
      cases hk : jlookup kvs "q_no" with
      | none =>
        refine ⟨Int.ofNat (i + 1), rfl, ?_⟩
        rw [show (1 : Int) = Int.ofNat 1 from rfl]
        exact Int.ofNat_le.mpr (by omega)
      | some v =>
        rw [hk] at hQno
        cases v with
        | num n => exact ⟨n, rfl, of_decide_eq_true hQno⟩
        | null => simp at hQno
        | bool b => simp at hQno
        | str s => simp at hQno
        | arr a => simp at hQno
        | obj o => simp at hQno
    obtain ⟨qn, hqn, hqn1⟩ := hqno
    obtain ⟨instr, hinstr⟩ := buildOptStr_healable kvs "instructions" hInstr
    cases hk : jlookup kvs "parts" with
    | none => rw [hk] at hParts; simp at hParts
    | some v =>
      rw [hk] at hParts
      cases v with
      | arr ps =>
        rw [Bool.and_eq_true] at hParts
        obtain ⟨hne, hall⟩ := hParts
        have hp2 := hpresent ps hk
        rw [hpm, hqn] at hp2
        obtain ⟨l, hbuild, hlen⟩ :=
          buildQuestionParts_map_ok pm hpm1 hpm2 (pyStrOf (Json.num qn)) mods ps hall
        have hlne : l.isEmpty = false := by
          cases l with
          | cons a as => rfl
          | nil =>
            cases ps with
            | nil => simp at hne
            | cons b bs => simp at hlen
        refine ⟨⟨qn, pm, l, instr⟩, ?_⟩
        simp only [buildQuestion, hqnoEq, hqn, hmarksEq, hpm, hp2, hbuild, hinstrEq, hinstr,
          hlne, Bool.false_eq_true, if_false]
        rw [if_pos hqn1, if_pos ⟨hpm1, hpm2⟩]
      | null => simp at hParts
      | bool b => simp at hParts
      | num n => simp at hParts
      | str s => simp at hParts
      | obj o => simp at hParts
  | null => simp [questionHealable] at hq
  | bool b => simp [questionHealable] at hq
  | num n => simp [questionHealable] at hq
  | str s => simp [questionHealable] at hq
  | arr a => simp [questionHealable] at hq

theorem buildQuestions_default_ok (t : TestType) (mods : List String)
    (qs : List Json) : ∀ i : Nat, qs.all questionHealable = true →
    ∃ l, buildQuestions (defaultPaperAux (questionLimits t) mods i qs) = Except.ok l := by
  induction qs with
  | nil => intro i _; exact ⟨[], rfl⟩
  | cons q rest ih =>
    intro i h
    rw [List.all_cons, Bool.and_eq_true] at h
    obtain ⟨x, hx⟩ := buildQuestion_default_ok t mods i q h.1
    obtain ⟨l, hl⟩ := ih (i + 1) h.2
    exact ⟨x :: l, by simp [defaultPaperAux, buildQuestions, hx, hl]⟩

theorem buildMetadata_defaults_ok (t : TestType) (mods : List String)
    (hmods : mods ≠ []) (md : List (String × Json))
    (hTitle : (match jlookup md "title" with
               | none => true
               | some (Json.str s) => decide (1 ≤ s.length)
               | _ => false) = true)
    (hTT : (match jlookup md "test_type" with
            | none => true
            | some (Json.str s) => s == "CAT-1" || s == "CAT-2" || s == "FAT"
            | _ => false) = true)
    (hMods : (match jlookup md "modules" with
              | none => true
              | some (Json.arr xs) => !xs.isEmpty && xs.all isStrJson
              | _ => false) = true)
    (hTM : (match jlookup md "total_marks" with
            | none => true
            | some (Json.num n) => decide (1 ≤ n)
            | _ => false) = true)
    (hNotes : optFieldStr md "notes" = true) :
    ∃ x, buildMetadata (Json.obj (mdChain t mods md)) = Except.ok x := by
  have hT : jlookup (mdChain t mods md) "title" =
      some ((jlookup md "title").getD (Json.str (TestType.value t ++ " Question Paper"))) := by
    unfold mdChain
    rw [jlookup_jSetdefault_other _ "notes" _ "title" (by decide),
      jlookup_jSetdefault_other _ "total_marks" _ "title" (by decide),
      jlookup_jSetdefault_other _ "modules" _ "title" (by decide),
      jlookup_jSetdefault_other _ "test_type" _ "title" (by decide),
      jlookup_jSetdefault_self]
  have hE : jlookup (mdChain t mods md) "test_type" =
      some ((jlookup md "test_type").getD (Json.str (TestType.value t))) := by
    unfold mdChain
    rw [jlookup_jSetdefault_other _ "notes" _ "test_type" (by decide),
      jlookup_jSetdefault_other _ "total_marks" _ "test_type" (by decide),
      jlookup_jSetdefault_other _ "modules" _ "test_type" (by decide),
      jlookup_jSetdefault_self,
      jlookup_jSetdefault_other _ "title" _ "test_type" (by decide)]
  have hM : jlookup (mdChain t mods md) "modules" =
      some ((jlookup md "modules").getD (Json.arr (mods.map Json.str))) := by
    unfold mdChain
    rw [jlookup_jSetdefault_other _ "notes" _ "modules" (by decide),
      jlookup_jSetdefault_other _ "total_marks" _ "modules" (by decide),
      jlookup_jSetdefault_self,
      jlookup_jSetdefault_other _ "test_type" _ "modules" (by decide),
      jlookup_jSetdefault_other _ "title" _ "modules" (by decide)]
  have hG : jlookup (mdChain t mods md) "total_marks" =
      some ((jlookup md "total_marks").getD (Json.num (questionLimits t).total)) := by
    unfold mdChain
    rw [jlookup_jSetdefault_other _ "notes" _ "total_marks" (by decide),
      jlookup_jSetdefault_self,
      jlookup_jSetdefault_other _ "modules" _ "total_marks" (by decide),
      jlookup_jSetdefault_other _ "test_type" _ "total_marks" (by decide),
      jlookup_jSetdefault_other _ "title" _ "total_marks" (by decide)]
  have hN : jlookup (mdChain t mods md) "notes" =
      some ((jlookup md "notes").getD (Json.str "Generated based on provided syllabus")) := by
    unfold mdChain
    rw [jlookup_jSetdefault_self,
      jlookup_jSetdefault_other _ "total_marks" _ "notes" (by decide),
      jlookup_jSetdefault_other _ "modules" _ "notes" (by decide),
      jlookup_jSetdefault_other _ "test_type" _ "notes" (by decide),
      jlookup_jSetdefault_other _ "title" _ "notes" (by decide)]
  have htitle : ∃ s, (jlookup md "title").getD
      (Json.str (TestType.value t ++ " Question Paper")) = Json.str s ∧ 1 ≤ s.length := by
    cases hk : jlookup md "title" with
    | none =>
      refine ⟨TestType.value t ++ " Question Paper", rfl, ?_⟩
      cases t <;> decide
    | some v =>
      rw [hk] at hTitle
      cases v with
      | str s => exact ⟨s, rfl, of_decide_eq_true hTitle⟩
      | null => simp at hTitle
      | bool b => simp at hTitle
      | num n => simp at hTitle
      | arr a => simp at hTitle
      | obj o => simp at hTitle
  obtain ⟨title, htitleEq, htitleLen⟩ := htitle
  have htt : ∃ tt, buildTestType ((jlookup md "test_type").getD
      (Json.str (TestType.value t))) = Except.ok tt := by
    cases hk : jlookup md "test_type" with
    | none =>
      cases t with
      | CAT1 => exact ⟨.CAT1, rfl⟩
      | CAT2 => exact ⟨.CAT2, rfl⟩
      | FAT => exact ⟨.FAT, rfl⟩
    | some v =>
      rw [hk] at hTT
      cases v with
      | str s =>
        rw [Bool.or_eq_true, Bool.or_eq_true] at hTT
        rcases hTT with (h1 | h2) | h3
        · have : s = "CAT-1" := by simpa using h1
          exact ⟨.CAT1, by simp [buildTestType, this]⟩
        · have : s = "CAT-2" := by simpa using h2
          exact ⟨.CAT2, by simp [buildTestType, this]⟩
        · have : s = "FAT" := by simpa using h3
          exact ⟨.FAT, by simp [buildTestType, this]⟩
      | null => simp at hTT
      | bool b => simp at hTT
      | num n => simp at hTT
      | arr a => simp at hTT
      | obj o => simp at hTT
  obtain ⟨tt, httEq⟩ := htt
  have hmodules : ∃ (xs : List Json) (l : List String),
      (jlookup md "modules").getD (Json.arr (mods.map Json.str)) = Json.arr xs ∧
      buildStrList xs = Except.ok l ∧ l.isEmpty = false := by
    cases hk : jlookup md "modules" with
    | none =>
      refine ⟨mods.map Json.str, mods, rfl, buildStrList_map_str mods, ?_⟩
      cases mods with
      | nil => exact absurd rfl hmods
      | cons a as => rfl
    | some v =>
      rw [hk] at hMods
      cases v with
      | arr xs =>
        rw [Bool.and_eq_true] at hMods
        obtain ⟨l, hl, hlen⟩ := buildStrList_all_str xs hMods.2
        refine ⟨xs, l, rfl, hl, ?_⟩
        cases l with
        | cons a as => rfl
        | nil =>
          cases xs with
          | nil => simp at hMods
          | cons b bs => simp at hlen
      | null => simp at hMods
      | bool b => simp at hMods
      | num n => simp at hMods
      | str s => simp at hMods
      | obj o => simp at hMods
  obtain ⟨xs, modsOut, hxsEq, hxsBuild, hxsNe⟩ := hmodules
  have htm : ∃ n, (jlookup md "total_marks").getD
      (Json.num (questionLimits t).total) = Json.num n ∧ 1 ≤ n := by
    cases hk : jlookup md "total_marks" with
    | none =>
      refine ⟨(questionLimits t).total, rfl, ?_⟩
      cases t <;> decide
    | some v =>
      rw [hk] at hTM
      cases v with
      | num n => exact ⟨n, rfl, of_decide_eq_true hTM⟩
      | null => simp at hTM
      | bool b => simp at hTM
      | str s => simp at hTM
      | arr a => simp at hTM
      | obj o => simp at hTM
  obtain ⟨tm, htmEq, htm1⟩ := htm
  have hnotes : ∃ o, buildOptStr (some ((jlookup md "notes").getD
      (Json.str "Generated based on provided syllabus"))) = Except.ok o := by
    cases hk : jlookup md "notes" with
    | none => exact ⟨some "Generated based on provided syllabus", rfl⟩
    | some v =>
      unfold optFieldStr at hNotes
      rw [hk] at hNotes
      cases v with
      | null => exact ⟨none, rfl⟩
      | str s => exact ⟨some s, rfl⟩
      | bool b => simp at hNotes
      | num n => simp at hNotes
      | arr a => simp at hNotes
      | obj o => simp at hNotes
  obtain ⟨notes, hnotesEq⟩ := hnotes
  refine ⟨⟨title, tt, modsOut, tm, notes⟩, ?_⟩
  simp only [buildMetadata, hT, htitleEq, hE, httEq, hM, hxsEq, hxsBuild, hxsNe,
    Bool.false_eq_true, if_false, hG, htmEq, hN, hnotesEq]
  rw [if_pos htitleLen, if_pos htm1]

theorem buildPaperValidation_defaults_ok (t : TestType) (vd : List (String × Json))
    (hTMC : (match jlookup vd "total_marks_check" with
             | none => true
             | some (Json.num _) => true
             | _ => false) = true)
    (hUQ : (match jlookup vd "unique_questions" with
            | none => true
            | some (Json.bool _) => true
            | _ => false) = true) :
    ∃ x, buildPaperValidation (Json.obj (vdChain t vd)) = Except.ok x := by
  have hC : jlookup (vdChain t vd) "total_marks_check" =
      some ((jlookup vd "total_marks_check").getD (Json.num (questionLimits t).total)) := by
    unfold vdChain
    rw [jlookup_jSetdefault_other _ "unique_questions" _ "total_marks_check" (by decide),
      jlookup_jSetdefault_self]
  have hU : jlookup (vdChain t vd) "unique_questions" =
      some ((jlookup vd "unique_questions").getD (Json.bool true)) := by
    unfold vdChain
    rw [jlookup_jSetdefault_self,
      jlookup_jSetdefault_other _ "total_marks_check" _ "unique_questions" (by decide)]
  have htmc : ∃ n, (jlookup vd "total_marks_check").getD
      (Json.num (questionLimits t).total) = Json.num n := by
    cases hk : jlookup vd "total_marks_check" with
    | none => exact ⟨(questionLimits t).total, rfl⟩
    | some v =>
      rw [hk] at hTMC
      cases v with
      | num n => exact ⟨n, rfl⟩
      | null => simp at hTMC
      | bool b => simp at hTMC
      | str s => simp at hTMC
      | arr a => simp at hTMC
      | obj o => simp at hTMC
  have huq : ∃ b, (jlookup vd "unique_questions").getD (Json.bool true) = Json.bool b := by
    cases hk : jlookup vd "unique_questions" with
    | none => exact ⟨true, rfl⟩
    | some v =>
      rw [hk] at hUQ
      cases v with
      | bool b => exact ⟨b, rfl⟩
      | null => simp at hUQ
      | num n => simp at hUQ
      | str s => simp at hUQ
      | arr a => simp at hUQ
      | obj o => simp at hUQ
  obtain ⟨n, hn⟩ := htmc
  obtain ⟨b, hb⟩ := huq
  exact ⟨⟨n, b⟩, by simp only [buildPaperValidation, hC, hn, hU, hb]⟩


theorem applyDefaultsTail_lookups (kvsA : List (String × Json)) (t : TestType)
    (mods : List String) (qs : List Json) (md : List (String × Json))
    (hmd : jlookup kvsA "metadata" = some (Json.obj md)) :
    ∃ vd,
      (vd = [] ∨ jlookup kvsA "validation" = some (Json.obj vd)) ∧
      jlookup (applyDefaultsTail kvsA t mods qs) "metadata" =
        some (Json.obj (mdChain t mods md)) ∧
      jlookup (applyDefaultsTail kvsA t mods qs) "validation" =
        some (Json.obj (vdChain t vd)) := by
  unfold applyDefaultsTail
  simp only [hmd]
  cases hv : jlookup kvsA "validation" with
  | none =>
    refine ⟨[], Or.inl rfl, ?_, ?_⟩ <;>
      simp [jlookup_jInsert_self, jlookup_jInsert_other, hv,
        jlookup_jInsert_other _ "metadata" (Json.obj (mdChain t mods md)) "validation"
          (by decide)]
  | some w =>
    cases w with
    | obj m2 =>
      refine ⟨m2, Or.inr rfl, ?_, ?_⟩ <;>
        simp [jlookup_jInsert_self, jlookup_jInsert_other, hv,
          jlookup_jInsert_other _ "metadata" (Json.obj (mdChain t mods md)) "validation"
            (by decide)]
    | null =>
      refine ⟨[], Or.inl rfl, ?_, ?_⟩ <;>
        simp [jlookup_jInsert_self, jlookup_jInsert_other, hv,
          jlookup_jInsert_other _ "metadata" (Json.obj (mdChain t mods md)) "validation"
            (by decide)]
    | bool b =>
      refine ⟨[], Or.inl rfl, ?_, ?_⟩ <;>
        simp [jlookup_jInsert_self, jlookup_jInsert_other, hv,
          jlookup_jInsert_other _ "metadata" (Json.obj (mdChain t mods md)) "validation"
            (by decide)]
    | num n =>
      refine ⟨[], Or.inl rfl, ?_, ?_⟩ <;>
        simp [jlookup_jInsert_self, jlookup_jInsert_other, hv,
          jlookup_jInsert_other _ "metadata" (Json.obj (mdChain t mods md)) "validation"
            (by decide)]
    | str s =>
      refine ⟨[], Or.inl rfl, ?_, ?_⟩ <;>
        simp [jlookup_jInsert_self, jlookup_jInsert_other, hv,
          jlookup_jInsert_other _ "metadata" (Json.obj (mdChain t mods md)) "validation"
            (by decide)]
    | arr a =>
      refine ⟨[], Or.inl rfl, ?_, ?_⟩ <;>
        simp [jlookup_jInsert_self, jlookup_jInsert_other, hv,
          jlookup_jInsert_other _ "metadata" (Json.obj (mdChain t mods md)) "validation"
            (by decide)]

theorem applyDefaults_lookups (kvs : List (String × Json)) (t : TestType)
    (mods : List String) (qs : List Json)
    (hpaper : jlookup kvs "paper" = some (Json.arr qs))
    (hmeta : (jlookup kvs "metadata").isSome = true) :
    ∃ md vd,
      (md = [] ∨ jlookup kvs "metadata" = some (Json.obj md)) ∧
      (vd = [] ∨ jlookup kvs "validation" = some (Json.obj vd)) ∧
      jlookup (applyDefaults kvs t mods) "metadata" =
        some (Json.obj (mdChain t mods md)) ∧
      jlookup (applyDefaults kvs t mods) "validation" =
        some (Json.obj (vdChain t vd)) ∧
      jlookup (applyDefaults kvs t mods) "paper" =
        some (Json.arr (defaultPaperAux (questionLimits t) mods 0 qs)) := by
  have hAD : ∀ kvsA, applyDefaults kvs t mods = applyDefaultsTail kvsA t mods qs →
      ∀ md, jlookup kvsA "metadata" = some (Json.obj md) →
      (jlookup kvsA "validation" = jlookup kvs "validation") →
      (md = [] ∨ jlookup kvs "metadata" = some (Json.obj md)) →
      ∃ md2 vd,
        (md2 = [] ∨ jlookup kvs "metadata" = some (Json.obj md2)) ∧
        (vd = [] ∨ jlookup kvs "validation" = some (Json.obj vd)) ∧
        jlookup (applyDefaults kvs t mods) "metadata" =
          some (Json.obj (mdChain t mods md2)) ∧
        jlookup (applyDefaults kvs t mods) "validation" =
          some (Json.obj (vdChain t vd)) ∧
        jlookup (applyDefaults kvs t mods) "paper" =
          some (Json.arr (defaultPaperAux (questionLimits t) mods 0 qs)) := by
    intro kvsA hEq md hmd hvtrans hchar
    obtain ⟨vd, hvd, hmLook, hvLook⟩ := applyDefaultsTail_lookups kvsA t mods qs md hmd
    refine ⟨md, vd, hchar, ?_, ?_, ?_, ?_⟩
    · rcases hvd with h | h
      · exact Or.inl h
      · exact Or.inr (hvtrans ▸ h)
    · rw [hEq]; exact hmLook
    · rw [hEq]; exact hvLook
    · rw [hEq]; exact applyDefaultsTail_paper kvsA t mods qs
  obtain ⟨v, hm⟩ := Option.isSome_iff_exists.mp hmeta
  · cases v with
    | obj m =>
      refine hAD kvs ?_ m hm rfl (Or.inr hm)
      simp only [applyDefaults, hpaper, hm]
    | null =>
      refine hAD (jInsert kvs "metadata" (Json.obj [])) ?_ []
        (jlookup_jInsert_self _ _ _)
        (jlookup_jInsert_other _ "metadata" _ "validation" (by decide)) (Or.inl rfl)
      simp only [applyDefaults, hpaper, hm]
    | bool b =>
      refine hAD (jInsert kvs "metadata" (Json.obj [])) ?_ []
        (jlookup_jInsert_self _ _ _)
        (jlookup_jInsert_other _ "metadata" _ "validation" (by decide)) (Or.inl rfl)
      simp only [applyDefaults, hpaper, hm]
    | num n =>
      refine hAD (jInsert kvs "metadata" (Json.obj [])) ?_ []
        (jlookup_jInsert_self _ _ _)
        (jlookup_jInsert_other _ "metadata" _ "validation" (by decide)) (Or.inl rfl)
      simp only [applyDefaults, hpaper, hm]
    | str s =>
      refine hAD (jInsert kvs "metadata" (Json.obj [])) ?_ []
        (jlookup_jInsert_self _ _ _)
        (jlookup_jInsert_other _ "metadata" _ "validation" (by decide)) (Or.inl rfl)
      simp only [applyDefaults, hpaper, hm]
    | arr a =>
      refine hAD (jInsert kvs "metadata" (Json.obj [])) ?_ []
        (jlookup_jInsert_self _ _ _)
        (jlookup_jInsert_other _ "metadata" _ "validation" (by decide)) (Or.inl rfl)
      simp only [applyDefaults, hpaper, hm]

/-- C2, counterexample to the claim as stated: this raw text contains a
balanced JSON object with the three top-level keys metadata, paper and
validation, with empty inner structures — yet repair throws, because the
defaulting fills a missing parts field with the empty list while the typed
Question requires at least one part. -/
theorem repairResponse_not_total_counterexample :
    (extractJsonSlice "\x7b\"metadata\": \x7b\x7d, \"paper\": [\x7b\x7d], \"validation\": \x7b\x7d\x7d").bind jsonLoads =
        some (Json.obj [("metadata", Json.obj []), ("paper", Json.arr [Json.obj []]),
          ("validation", Json.obj [])]) ∧
      repairResponse "\x7b\"metadata\": \x7b\x7d, \"paper\": [\x7b\x7d], \"validation\": \x7b\x7d\x7d"
          ⟨"Module 1: alpha", TestType.CAT1, ["Module 1"]⟩ =
        Except.error "Response validation failed: parts: List should have at least 1 item" := by
  exact ⟨rfl, rfl⟩

/-- C2 as amended: repair is total on every raw text whose slice from the
first opening brace to the last closing brace parses as a JSON object with
the three required top-level keys, provided the inner structures are
healable: the paper is a list of question objects whose present fields are
valid and whose parts field is a non-empty list of part objects with valid
present fields, and metadata/validation are either non-dicts (then rebuilt
from defaults) or dicts with valid present fields.  Every omitted field is
filled by the deterministic defaulting before construction, so typed
construction cannot fail on such input. -/
theorem repairResponse_total_on_healable (raw : String)
    (req : QuestionGenerationRequest) (kvs : List (String × Json)) (qs : List Json)
    (hparse : (extractJsonSlice raw).bind jsonLoads = some (Json.obj kvs))
    (hmods : req.modules ≠ [])
    (hpaper : jlookup kvs "paper" = some (Json.arr qs))
    (hmeta : metadataHealable kvs = true)
    (hvald : validationHealable kvs = true)
    (hqs : qs.all questionHealable = true) :
    exceptOk (repairResponse raw req) = true := by
  obtain ⟨clean, hslice, hloads⟩ := Option.bind_eq_some.mp hparse
  have hmS : (jlookup kvs "metadata").isSome = true := by
    unfold metadataHealable at hmeta
    cases h : jlookup kvs "metadata" with
    | none => rw [h] at hmeta; simp at hmeta
    | some v => rfl
  have hvS : (jlookup kvs "validation").isSome = true := by
    unfold validationHealable at hvald
    cases h : jlookup kvs "validation" with
    | none => rw [h] at hvald; simp at hvald
    | some v => rfl
  have hmN : (jlookup kvs "metadata").isNone = false := by
    obtain ⟨x, hx⟩ := Option.isSome_iff_exists.mp hmS
    rw [hx]; rfl
  have hvN : (jlookup kvs "validation").isNone = false := by
    obtain ⟨x, hx⟩ := Option.isSome_iff_exists.mp hvS
    rw [hx]; rfl
  have hpN : (jlookup kvs "paper").isNone = false := by rw [hpaper]; rfl
  have hmiss : requiredFields.filter (fun f => (jlookup kvs f).isNone) = [] := by
    simp [requiredFields, List.filter_cons, hmN, hvN, hpN]
  obtain ⟨md, vd, hmdChar, hvdChar, hLm, hLv, hLp⟩ :=
    applyDefaults_lookups kvs req.test_type req.modules qs hpaper hmS
  have hMDok : ∃ x, buildMetadata (Json.obj (mdChain req.test_type req.modules md)) =
      Except.ok x := by
    rcases hmdChar with h | h
    · subst h
      exact buildMetadata_defaults_ok req.test_type req.modules hmods [] rfl rfl rfl rfl rfl
    · unfold metadataHealable at hmeta
      rw [h] at hmeta
      rw [Bool.and_eq_true, Bool.and_eq_true, Bool.and_eq_true, Bool.and_eq_true] at hmeta
      obtain ⟨⟨⟨⟨h1, h2⟩, h3⟩, h4⟩, h5⟩ := hmeta
      exact buildMetadata_defaults_ok req.test_type req.modules hmods md h1 h2 h3 h4 h5
  have hVDok : ∃ x, buildPaperValidation (Json.obj (vdChain req.test_type vd)) =
      Except.ok x := by
    rcases hvdChar with h | h
    · subst h
      exact buildPaperValidation_defaults_ok req.test_type [] rfl rfl
    · unfold validationHealable at hvald
      rw [h] at hvald
      rw [Bool.and_eq_true] at hvald
      exact buildPaperValidation_defaults_ok req.test_type vd hvald.1 hvald.2
  obtain ⟨mdOut, hMD⟩ := hMDok
  obtain ⟨vdOut, hVD⟩ := hVDok
  obtain ⟨paperOut, hPQ⟩ := buildQuestions_default_ok req.test_type req.modules qs 0 hqs
  have hbuild : buildGeneratedQuestionPaper (applyDefaults kvs req.test_type req.modules) =
      Except.ok ⟨mdOut, paperOut, vdOut⟩ := by
    simp only [buildGeneratedQuestionPaper, hLm, hMD, hLp, hPQ, hLv, hVD]
  simp only [repairResponse, hslice, hloads, hmiss, List.isEmpty_nil, Bool.not_true,
    Bool.false_eq_true, if_false, hbuild, exceptOk]

/-- Witness for the amended C2 at a concrete raw text whose only question
object carries a single empty part object; repair succeeds. -/
theorem repairResponse_total_on_healable_witness :
    exceptOk (repairResponse
      "\x7b\"metadata\": \x7b\x7d, \"paper\": [\x7b\"parts\": [\x7b\x7d]\x7d], \"validation\": \x7b\x7d\x7d"
      ⟨"Module 1: alpha", TestType.CAT1, ["Module 1"]⟩) = true := by
  exact repairResponse_total_on_healable
    "\x7b\"metadata\": \x7b\x7d, \"paper\": [\x7b\"parts\": [\x7b\x7d]\x7d], \"validation\": \x7b\x7d\x7d"
    ⟨"Module 1: alpha", TestType.CAT1, ["Module 1"]⟩
    [("metadata", Json.obj []),
      ("paper", Json.arr [Json.obj [("parts", Json.arr [Json.obj []])]]),
      ("validation", Json.obj [])]
    [Json.obj [("parts", Json.arr [Json.obj []])]]
    rfl (by decide) rfl rfl rfl rfl
